import Mathlib

/-!
# Verification of the ai4peace round-resolution engine

Shallow embedding of the gamemaster round-resolution engine
(`src/ai4peace/core/gamemaster.py`) and of the game-state data model it
mutates.  The data model itself (`game_state.py`) and the action model
(`actions.py`) are imported by the gamemaster but are not part of the
source tree that was provided, so those definitions are modelled from the
specification ("Modelled from the spec:" in their doc comments); everything
in the `GameMaster` namespace is translated directly from
`gamemaster.py`.

Python `float` values are modelled as exact rationals (`ℚ`); all the
arithmetic performed by the engine (fixed percentages, `min`, comparisons)
is exact in this model.  Python's `datetime` values are modelled as a count
of days since 1970-01-01 together with the standard civil-calendar
conversion, and `datetime.now()` — the wall clock read by several action
handlers — is threaded through as an explicit parameter `now`.  The
seeded `random.Random` stream is modelled as a function from draw index to
a value in `[0, 1)`.
-/

-- The Batteries `Rat` arithmetic operations are `@[irreducible]`, which
-- blocks `decide`-style evaluation of the engine on concrete inputs; the
-- kernel itself is free to unfold them.
attribute [local semireducible] Rat.add Rat.mul Rat.sub Rat.inv Rat.ofScientific

set_option maxRecDepth 4000

namespace AI4Peace

/-! ## Calendar (model of Python `datetime.date` arithmetic)

`datetime` objects are modelled by the number of days since 1970-01-01
(all dates relevant to the engine are at midnight; `timedelta(days = k)`
is `+ k`).  `civilFromDays`/`daysFromCivil` are the standard proleptic
Gregorian conversions.
-/

/-- A point in time, as a count of days since 1970-01-01. -/
structure PyDate where
  days : Int
deriving DecidableEq, Repr

/-- Gregorian `(year, month, day)` of a day count (civil-from-days). -/
def civilFromDays (z0 : Int) : Int × Nat × Nat :=
  let z : Int := z0 + 719468
  let era : Int := Int.fdiv z 146097
  let doe : Nat := (z - era * 146097).toNat
  let yoe : Nat := (doe - doe / 1460 + doe / 36524 - doe / 146096) / 365
  let y : Int := (yoe : Int) + era * 400
  let doy : Nat := doe - (365 * yoe + yoe / 4 - yoe / 100)
  let mp : Nat := (5 * doy + 2) / 153
  let d : Nat := doy - (153 * mp + 2) / 5 + 1
  let m : Nat := if mp < 10 then mp + 3 else mp - 9
  (if m ≤ 2 then y + 1 else y, m, d)

/-- Day count of a Gregorian date (days-from-civil). -/
def daysFromCivil (y0 : Int) (m d : Nat) : Int :=
  let y : Int := if m ≤ 2 then y0 - 1 else y0
  let era : Int := Int.fdiv y 400
  let yoe : Nat := (y - era * 400).toNat
  let mp : Nat := if 2 < m then m - 3 else m + 9
  let doy : Nat := (153 * mp + 2) / 5 + d - 1
  let doe : Nat := yoe * 365 + yoe / 4 - yoe / 100 + doy
  era * 146097 + (doe : Int) - 719468

/-- The year of a date (model of `datetime.year`). -/
def PyDate.year (d : PyDate) : Int := (civilFromDays d.days).1

/-- Model of `str(date.year)`. -/
def yearStr (d : PyDate) : String := toString d.year

/-- Zero-padded two-digit rendering of a month or day number. -/
def pad2 (n : Nat) : String := if n < 10 then "0" ++ toString n else toString n

/-- Model of `date.strftime(\x27%Y-%m-%d\x27)`. -/
def fmtDate (d : PyDate) : String :=
  let c := civilFromDays d.days
  toString c.1 ++ "-" ++ pad2 c.2.1 ++ "-" ++ pad2 c.2.2

/-! ## Numeric formatting (model of Python format specifiers) -/

/-- Round a rational to the nearest integer, ties to even (the rounding
used by Python's `format`). -/
def roundHalfEven (q : ℚ) : Int :=
  let f : Int := Rat.floor q
  let r : ℚ := q - (f : ℚ)
  if r < 1/2 then f
  else if 1/2 < r then f + 1
  else if f % 2 = 0 then f else f + 1

/-- Insert thousands separators into a reversed digit list: a comma is
emitted before every digit that follows a completed group of three. -/
def commasRev : List Char → Nat → List Char
  | [], _ => []
  | c :: cs, k =>
    if k = 3 then ',' :: c :: commasRev cs 1
    else c :: commasRev cs (k + 1)

/-- Decimal rendering of a natural number with thousands separators. -/
def natCommas (n : Nat) : String :=
  String.mk ((commasRev (toString n).toList.reverse 0).reverse)

/-- Model of the Python format specifier `,.0f`. -/
def fmtComma0 (q : ℚ) : String :=
  let i := roundHalfEven q
  (if i < 0 then "-" else "") ++ natCommas i.natAbs

/-- Model of the Python format specifier `.0f`. -/
def fmtPlain0 (q : ℚ) : String := toString (roundHalfEven q)

/-- Model of the Python format specifier `.1f`. -/
def fmtPlain1 (q : ℚ) : String :=
  let n := roundHalfEven (q * 10)
  (if n < 0 then "-" else "") ++
    toString (n.natAbs / 10) ++ "." ++ toString (n.natAbs % 10)

/-- Model of Python string slicing `s[:50]`. -/
def strTake50 (s : String) : String := String.mk (s.toList.take 50)

/-! ## Substring containment -/

/-- Predicate `containsSeq needle hay`: `needle` occurs as a contiguous sublist of
`hay`. -/
def containsSeq (needle : List Char) : List Char → Bool
  | [] => decide (needle = [])
  | c :: rest => needle.isPrefixOf (c :: rest) || containsSeq needle rest

/-- Predicate `containsSub hay needle`: `needle` occurs as a substring of `hay`
(model of Python's `needle in hay`). -/
def containsSub (hay needle : String) : Bool :=
  containsSeq needle.data hay.data

/-! ## The seeded random stream

Modelled from the spec: "Deterministic given a seeded random source; all
stochastic decisions draw from that single per-gamemaster random stream."
The Mersenne-Twister internals of Python's `random.Random` are not part of
the repository; the stream is modelled as a fixed, deterministic function
of the seed producing values in `[0, 1)`, consumed one draw at a time.
`random.random()` consumes one draw; `random.choice(seq)` consumes one
draw and scales it to an index.
-/

/-- State of a `random.Random` instance: the draw stream and the number of
draws already consumed. -/
structure PyRandom where
  stream : Nat → ℚ
  idx : Nat

/-- Modelled from the spec: the deterministic draw stream produced by
seeding `random.Random(seed)`.  (Stand-in for the Mersenne Twister, which
is not repository code; only its determinism is relevant.) -/
def seedStream (seed : Nat) (i : Nat) : ℚ :=
  (((seed + 1) * 2654435761 + (i + 1) * 40503) % 2147483647 : Nat) / 2147483647

/-- Model of `random.Random(seed)`. -/
def mkRandom (seed : Nat) : PyRandom := ⟨seedStream seed, 0⟩

/-- Model of `random.random()`: one draw from the stream. -/
def randFloat (r : PyRandom) : ℚ × PyRandom :=
  (r.stream r.idx, ⟨r.stream, r.idx + 1⟩)

/-- Model of `random.choice` on a sequence of length `n`: consumes one
draw and scales it to an index `< n`. -/
def randChoice (r : PyRandom) (n : Nat) : Nat × PyRandom :=
  (min (Rat.floor (r.stream r.idx * n)).toNat (n - 1), ⟨r.stream, r.idx + 1⟩)

/-! ## Dictionaries

Python `dict`s keyed by strings are modelled as insertion-ordered
association lists: lookup returns the first binding, assignment updates
the first binding in place or appends a new one at the end. -/

/-- Model of `d.get(k, dflt)` for a `Dict[str, float]`. -/
def dgetQ (d : List (String × ℚ)) (k : String) (dflt : ℚ) : ℚ :=
  match d with
  | [] => dflt
  | (k', v) :: rest => if k' = k then v else dgetQ rest k dflt

/-- Model of `d[k] = v` for a `Dict[str, float]`. -/
def dsetQ (d : List (String × ℚ)) (k : String) (v : ℚ) : List (String × ℚ) :=
  match d with
  | [] => [(k, v)]
  | (k', v') :: rest => if k' = k then (k, v) :: rest else (k', v') :: dsetQ rest k v

/-! ## Data model

Modelled from the spec (the `game_state.py` module is imported by the
gamemaster but is not under the provided source tree): state entities
`AssetBalance`, `ResearchProject`, `Message`, `PrivateInfo`, `PublicView`,
`CharacterState`, `GameState`.  Following the design note in the spec, the
two ephemeral per-round scratch buffers that the gamemaster attaches to
characters ad hoc (`_espionage_results` and `_private_updates`) are
modelled as always-present fields initialized empty. -/

/-- Modelled from the spec: three numeric asset fields with `add` and
`subtract` producing a new balance. -/
structure AssetBalance where
  technical_capability : ℚ
  capital : ℚ
  human : ℚ
deriving DecidableEq, Repr

/-- Modelled from the spec: component-wise sum of balances. -/
def AssetBalance.add (a b : AssetBalance) : AssetBalance :=
  ⟨a.technical_capability + b.technical_capability, a.capital + b.capital, a.human + b.human⟩

/-- Modelled from the spec: component-wise difference of balances (callers
check sufficiency first). -/
def AssetBalance.subtract (a b : AssetBalance) : AssetBalance :=
  ⟨a.technical_capability - b.technical_capability, a.capital - b.capital, a.human - b.human⟩

/-- Modelled from the spec: a research project owned by a character. -/
structure ResearchProject where
  name : String
  description : String
  target_completion_date : PyDate
  committed_budget : ℚ
  committed_assets : AssetBalance
  status : String
  progress : ℚ
  realistic_goals : Option String
deriving DecidableEq, Repr

/-- Modelled from the spec: a bilateral message record. -/
structure Message where
  from_character : String
  to_character : String
  content : String
  timestamp : PyDate
  round_number : Nat
deriving DecidableEq, Repr

/-- Modelled from the spec: a pending espionage-attempt record queued on
the acting character (the dict the gamemaster appends to
`character._espionage_results`). -/
structure EspionageRecord where
  target : String
  focus : String
  budget : ℚ
  success : Bool
  round : Nat
deriving DecidableEq, Repr

/-- Modelled from the spec: a character's ground-truth private state. -/
structure PrivateInfo where
  true_asset_balance : AssetBalance
  budget : List (String × ℚ)
  projects : List ResearchProject
  objectives : String
  strategy : String
deriving DecidableEq, Repr

/-- Modelled from the spec: a character's self-reported public state
(never mutated by the gamemaster). -/
structure PublicView where
  asset_balance : AssetBalance
  stated_objectives : String
  stated_strategy : String
  public_artifacts : List String
deriving DecidableEq, Repr

/-- Modelled from the spec: one character of the simulation. -/
structure CharacterState where
  name : String
  private_info : PrivateInfo
  public_view : PublicView
  recent_actions : List String
  messages : List Message
  espionage_results : List EspionageRecord
  private_updates : List String
deriving DecidableEq, Repr

/-- Modelled from the spec: append an incoming message to the inbox. -/
def CharacterState.add_message (c : CharacterState) (m : Message) : CharacterState :=
  { c with messages := c.messages ++ [m] }

/-- Modelled from the spec: the shared mutable world state. -/
structure GameState where
  current_date : PyDate
  round_number : Nat
  characters : List (String × CharacterState)
  public_events : List String
  game_history : List String
deriving DecidableEq, Repr

/-- First binding of `name` in an association list of characters. -/
def lookupChar (l : List (String × CharacterState)) (name : String) : Option CharacterState :=
  match l with
  | [] => none
  | (k, c) :: rest => if k = name then some c else lookupChar rest name

/-- Modelled from the spec: name lookup; absence is a normal outcome. -/
def GameState.get_character (gs : GameState) (name : String) : Option CharacterState :=
  lookupChar gs.characters name

/-- Modelled from the spec: `round_number += 1; current_date += 91 days`
(one quarter). -/
def GameState.increment_round (gs : GameState) : GameState :=
  { gs with round_number := gs.round_number + 1,
            current_date := ⟨gs.current_date.days + 91⟩ }

/-- Replace the (first) binding of `name` in an association list of
characters; a missing name leaves the list unchanged.  This is how an
in-place mutation of the character object held in the Python dict is
reflected in the functional model. -/
def putChar (l : List (String × CharacterState)) (name : String) (c : CharacterState) :
    List (String × CharacterState) :=
  match l with
  | [] => []
  | (k, v) :: rest => if k = name then (k, c) :: rest else (k, v) :: putChar rest name c

/-- State update corresponding to mutating the character object `name`
in place. -/
def setChar (gs : GameState) (name : String) (c : CharacterState) : GameState :=
  { gs with characters := putChar gs.characters name c }

/-- Fetch-modify-store on one character; no-op when the name is unknown. -/
def modifyChar (gs : GameState) (name : String) (f : CharacterState → CharacterState) :
    GameState :=
  match gs.get_character name with
  | some c => setChar gs name (f c)
  | none => gs

/-! ## Action model

Modelled from the spec (the `actions.py` module is imported by the
gamemaster but is not under the provided source tree): a closed tagged set
of action variants; each variant carries only the fields relevant to it,
the others are absent (`none`). -/

/-- Modelled from the spec: the closed set of action kinds. -/
inductive ActionType where
  | FUNDRAISE
  | CREATE_RESEARCH_PROJECT
  | CANCEL_RESEARCH_PROJECT
  | INVEST_CAPITAL
  | SELL_CAPITAL
  | ESPIONAGE
  | POACH_TALENT
  | LOBBY
  | MARKETING
  | MESSAGE
deriving DecidableEq, Repr

/-- Modelled from the spec: an optional outgoing message payload. -/
structure MessagePayload where
  to_character : String
  content : String
deriving DecidableEq, Repr

/-- Modelled from the spec: the full project spec carried by a
CREATE_RESEARCH_PROJECT action (`required_assets` is a dict keyed by asset
category). -/
structure ResearchProjectPayload where
  name : String
  description : String
  target_completion_date : String
  annual_budget : ℚ
  required_assets : List (String × ℚ)
deriving DecidableEq, Repr

/-- Modelled from the spec: the payload of an ESPIONAGE action. -/
structure EspionagePayload where
  target_character : String
  budget : ℚ
  focus : String
deriving DecidableEq, Repr

/-- Modelled from the spec: a submitted action with per-variant optional
fields. -/
structure Action where
  character_name : String
  action_type : ActionType
  round_number : Nat := 0
  message : Option MessagePayload := none
  fundraising_amount : Option ℚ := none
  research_project : Option ResearchProjectPayload := none
  project_name_to_cancel : Option String := none
  capital_investment : Option ℚ := none
  capital_to_sell : Option ℚ := none
  espionage : Option EspionagePayload := none
  poaching_target : Option String := none
  poaching_budget : Option ℚ := none
  lobbying_message : Option String := none
  lobbying_budget : Option ℚ := none
  marketing_message : Option String := none
  marketing_budget : Option ℚ := none
deriving DecidableEq, Repr

/-- Python truthiness of an optional float field (`None` and `0.0` are
falsy). -/
def truthyQ : Option ℚ → Bool
  | none => false
  | some q => decide (q ≠ 0)

/-- Python truthiness of an optional string field (`None` and the empty
string are falsy). -/
def truthyS : Option String → Bool
  | none => false
  | some s => decide (s ≠ "")

/-- Split a character list at every dash. -/
def splitDash : List Char → List (List Char)
  | [] => [[]]
  | c :: rest =>
    let r := splitDash rest
    if c = '-' then [] :: r
    else
      match r with
      | h :: t => (c :: h) :: t
      | [] => [[c]]

/-- Parse a nonempty all-digit character list as a natural number. -/
def digitsToNat? (l : List Char) : Option Nat :=
  if l = [] then none
  else
    l.foldl
      (fun acc c =>
        match acc with
        | none => none
        | some n => if c.isDigit then some (n * 10 + (c.toNat - 48)) else none)
      (some 0)

/-- Model of `datetime.fromisoformat` on a date string: succeeds on
`YYYY-MM-DD`, otherwise fails (the gamemaster catches the `ValueError`). -/
def parseIsoDate (s : String) : Option PyDate :=
  match splitDash s.data with
  | [ys, ms, ds] =>
    match digitsToNat? ys, digitsToNat? ms, digitsToNat? ds with
    | some y, some m, some d =>
      if 1 ≤ m ∧ m ≤ 12 ∧ 1 ≤ d ∧ d ≤ 31 then some ⟨daysFromCivil (y : Int) m d⟩
      else none
    | _, _, _ => none
  | _ => none

/-- The scenario-supplied random-event catalog
(`RANDOM_EVENTS` in `src/ai4peace/scenarios/basic_ai_race.py`). -/
def RANDOM_EVENTS : List String :=
  [ "A major AI accident occurs where a deployed model causes significant deaths",
    "A breakthrough in mechanistic interpretability shows it\x27s possible to safely scale 10x faster by perfectly understanding and controlling model internals",
    "China announces deployment of a more capable model than any Western lab",
    "New export controls or compute governance framework passes that caps training runs at current levels",
    "Researchers demonstrate clear signs of deceptive alignment or scheming behavior in a frontier model" ]

/-! ## GameMaster: action handlers

Each definition below translates the correspondingly named method of
`GameMaster` in `src/ai4peace/core/gamemaster.py` (leading underscores
dropped).  The Python methods mutate the character object fetched from the
game-state dict in place; here each handler takes the pre-fetched
character `c` of name `name` and returns the updated game state, the
random-stream state, and the action summary string.  `now` models the
wall clock `datetime.now()` read by several handlers, at day
granularity. -/

namespace GameMaster

/-- Translation of `GameMaster._process_fundraising` (gamemaster.py lines 133-148). -/
def process_fundraising (now : PyDate) (gs : GameState) (rng : PyRandom)
    (name : String) (c : CharacterState) (a : Action) : GameState × PyRandom × String :=
  if truthyQ a.fundraising_amount then
    let amount := a.fundraising_amount.getD 0
    let (u, rng') := randFloat rng
    -- success_prob = 0.7; success = self.random.random() < success_prob
    if u < (0.7 : ℚ) then
      let year := yearStr now
      let current_budget := dgetQ c.private_info.budget year 0
      let c' := { c with private_info := { c.private_info with
                    budget := dsetQ c.private_info.budget year (current_budget + amount * 0.8) } }
      (setChar gs name c', rng', "Successfully raised $" ++ fmtComma0 (amount * 0.8))
    else
      (gs, rng', "Fundraising attempt for $" ++ fmtComma0 amount ++ " was unsuccessful")
  else
    (gs, rng, "Fundraising action with no amount specified")

/-- Translation of `GameMaster._assess_research_realism` (gamemaster.py lines 454-474).
Returns the (possibly timeline-extended) project together with the
advisory note that the caller assigns to `realistic_goals`. -/
def assess_research_realism (now : PyDate) (p : ResearchProject) :
    ResearchProject × Option String :=
  let days_to_complete : Int := p.target_completion_date.days - now.days
  let required_resources : ℚ :=
    p.committed_assets.human + p.committed_assets.technical_capability * 0.5 +
      p.committed_assets.capital * 0.3
  if required_resources * (days_to_complete : ℚ) < (days_to_complete : ℚ) * 10 then
    ({ p with target_completion_date := ⟨now.days + 365⟩ },
     some "Timeline extended to be more realistic given available resources.")
  else (p, none)

/-- The created project after the realism assessment (gamemaster.py line
203): `project.realistic_goals = self._assess_research_realism(project,
character)`, where the assessment may also have extended the timeline. -/
def finalizeProject (now : PyDate) (p : ResearchProject) : ResearchProject :=
  { (assess_research_realism now p).1 with
    realistic_goals := (assess_research_realism now p).2 }

/-- Translation of `GameMaster._process_create_research` (gamemaster.py lines 150-206). -/
def process_create_research (now : PyDate) (gs : GameState) (rng : PyRandom)
    (name : String) (c : CharacterState) (a : Action) : GameState × PyRandom × String :=
  match a.research_project with
  | none => (gs, rng, "Research project creation with no project details")
  | some pd =>
    let required : AssetBalance :=
      ⟨dgetQ pd.required_assets "technical_capability" 0,
       dgetQ pd.required_assets "capital" 0,
       dgetQ pd.required_assets "human" 0⟩
    let current := c.private_info.true_asset_balance
    if current.technical_capability < required.technical_capability ∨
        current.capital < required.capital ∨ current.human < required.human then
      (gs, rng, "Insufficient resources to start research project \x27" ++ pd.name ++ "\x27")
    else
      let year := yearStr gs.current_date
      let current_budget := dgetQ c.private_info.budget year 0
      if current_budget < pd.annual_budget then
        (gs, rng, "Insufficient budget for research project \x27" ++ pd.name ++ "\x27")
      else
        let target_date :=
          match parseIsoDate pd.target_completion_date with
          | some d => d
          | none => ⟨gs.current_date.days + 365⟩
        let project : ResearchProject :=
          { name := pd.name, description := pd.description,
            target_completion_date := target_date,
            committed_budget := pd.annual_budget, committed_assets := required,
            status := "active", progress := 0, realistic_goals := none }
        let c1 := { c with private_info := { c.private_info with
                      true_asset_balance := current.subtract required,
                      budget := dsetQ c.private_info.budget year
                        (current_budget - pd.annual_budget) } }
        let project2 := finalizeProject now project
        let c2 := { c1 with private_info := { c1.private_info with
                      projects := c1.private_info.projects ++ [project2] } }
        (setChar gs name c2, rng, "Created research project \x27" ++ pd.name ++ "\x27")

/-- The search-and-cancel loop of `_process_cancel_research`: find the
first active project of the given name, mark it cancelled, and report the
50% refund of its committed assets; `none` when no active project
matches. -/
def cancelFirst (pname : String) :
    List ResearchProject → Option (List ResearchProject × AssetBalance)
  | [] => none
  | p :: rest =>
    if p.name = pname ∧ p.status = "active" then
      some ({ p with status := "cancelled" } :: rest,
            ⟨p.committed_assets.technical_capability * 0.5,
             p.committed_assets.capital * 0.5,
             p.committed_assets.human * 0.5⟩)
    else
      match cancelFirst pname rest with
      | some (rest', refund) => some (p :: rest', refund)
      | none => none

/-- Translation of `GameMaster._process_cancel_research` (gamemaster.py lines 208-228). -/
def process_cancel_research (gs : GameState) (rng : PyRandom)
    (name : String) (c : CharacterState) (a : Action) : GameState × PyRandom × String :=
  if truthyS a.project_name_to_cancel then
    let pname := a.project_name_to_cancel.getD ""
    match cancelFirst pname c.private_info.projects with
    | some pr =>
      let c' := { c with private_info := { c.private_info with
                    projects := pr.1,
                    true_asset_balance := c.private_info.true_asset_balance.add pr.2 } }
      (setChar gs name c', rng, "Cancelled research project \x27" ++ pname ++ "\x27")
    | none =>
      (gs, rng, "Could not find active research project \x27" ++ pname ++ "\x27")
  else
    (gs, rng, "Cancel action with no project name")

/-- Translation of `GameMaster._process_capital_investment` (gamemaster.py lines 230-245). -/
def process_capital_investment (now : PyDate) (gs : GameState) (rng : PyRandom)
    (name : String) (c : CharacterState) (a : Action) : GameState × PyRandom × String :=
  if truthyQ a.capital_investment then
    let amount := a.capital_investment.getD 0
    let year := yearStr now
    let budget := dgetQ c.private_info.budget year 0
    if budget < amount then
      (gs, rng, "Insufficient budget for capital investment of $" ++ fmtComma0 amount)
    else
      let c' := { c with private_info := { c.private_info with
                    budget := dsetQ c.private_info.budget year (budget - amount),
                    true_asset_balance := { c.private_info.true_asset_balance with
                      capital := c.private_info.true_asset_balance.capital + amount * 0.9 } } }
      (setChar gs name c', rng, "Invested $" ++ fmtComma0 amount ++ " in capital improvements")
  else
    (gs, rng, "Capital investment with no amount")

/-- Translation of `GameMaster._process_sell_capital` (gamemaster.py lines 247-262). -/
def process_sell_capital (now : PyDate) (gs : GameState) (rng : PyRandom)
    (name : String) (c : CharacterState) (a : Action) : GameState × PyRandom × String :=
  if truthyQ a.capital_to_sell then
    let amount := a.capital_to_sell.getD 0
    if c.private_info.true_asset_balance.capital < amount then
      (gs, rng, "Insufficient capital to sell $" ++ fmtComma0 amount)
    else
      let year := yearStr now
      let current_budget := dgetQ c.private_info.budget year 0
      let c' := { c with private_info := { c.private_info with
                    true_asset_balance := { c.private_info.true_asset_balance with
                      capital := c.private_info.true_asset_balance.capital - amount },
                    budget := dsetQ c.private_info.budget year
                      (current_budget + amount * 0.7) } }
      (setChar gs name c', rng, "Sold $" ++ fmtComma0 amount ++ " in capital assets")
  else
    (gs, rng, "Sell capital with no amount")

/-- The acting character immediately after espionage initiation
(gamemaster.py lines 284-302): the budget is deducted and the attempt
record is appended to the pending espionage buffer. -/
def espionageQueuedChar (c : CharacterState) (year : String) (esp : EspionagePayload)
    (success : Bool) (round : Nat) : CharacterState :=
  { c with
    private_info := { c.private_info with
      budget := dsetQ c.private_info.budget year (dgetQ c.private_info.budget year 0 - esp.budget) },
    espionage_results := c.espionage_results ++
      [⟨esp.target_character, esp.focus, esp.budget, success, round⟩] }

/-- Translation of `GameMaster._process_espionage` (gamemaster.py lines 264-304). -/
def process_espionage (gs : GameState) (rng : PyRandom)
    (name : String) (c : CharacterState) (a : Action) : GameState × PyRandom × String :=
  match a.espionage with
  | none => (gs, rng, "Espionage action with no details")
  | some esp =>
    match gs.get_character esp.target_character with
    | none => (gs, rng, "Target character \x27" ++ esp.target_character ++ "\x27 not found")
    | some _ =>
      let year := yearStr gs.current_date
      let budget := dgetQ c.private_info.budget year 0
      if budget < esp.budget then
        (gs, rng, "Insufficient budget for espionage")
      else
        let success_prob := min (0.3 + esp.budget / 1000000) (0.8 : ℚ)
        let (u, rng') := randFloat rng
        let success := decide (u < success_prob)
        (setChar gs name (espionageQueuedChar c year esp success gs.round_number), rng',
          "Conducted espionage on " ++ esp.target_character ++
            " (" ++ (if success then "success" else "failed") ++ ")")

/-- The in-place mutation `target.private_info.true_asset_balance.human -= t`. -/
def subHumanBy (t : ℚ) (ch : CharacterState) : CharacterState :=
  { ch with private_info := { ch.private_info with
      true_asset_balance := { ch.private_info.true_asset_balance with
        human := ch.private_info.true_asset_balance.human - t } } }

/-- The in-place mutation `character.private_info.true_asset_balance.human += t`. -/
def addHumanBy (t : ℚ) (ch : CharacterState) : CharacterState :=
  { ch with private_info := { ch.private_info with
      true_asset_balance := { ch.private_info.true_asset_balance with
        human := ch.private_info.true_asset_balance.human + t } } }

/-- Translation of `GameMaster._process_poaching` (gamemaster.py lines 306-340). -/
def process_poaching (gs : GameState) (rng : PyRandom)
    (name : String) (c : CharacterState) (a : Action) : GameState × PyRandom × String :=
  if truthyS a.poaching_target && truthyQ a.poaching_budget then
    let tname := a.poaching_target.getD ""
    let pbudget := a.poaching_budget.getD 0
    match gs.get_character tname with
    | none => (gs, rng, "Target character \x27" ++ tname ++ "\x27 not found")
    | some target =>
      let year := yearStr gs.current_date
      let budget := dgetQ c.private_info.budget year 0
      if budget < pbudget then
        (gs, rng, "Insufficient budget for poaching")
      else
        let gs1 := setChar gs name { c with private_info := { c.private_info with
                     budget := dsetQ c.private_info.budget year (budget - pbudget) } }
        let success_prob := min (0.2 + pbudget / 500000) (0.6 : ℚ)
        let (u, rng') := randFloat rng
        if u < success_prob then
          -- transfer_amount = min(target.human * 0.1, 5.0); the deduction
          -- above only touched the actor budget, so the human field read
          -- here equals the one read by the Python code
          let transfer_amount := min (target.private_info.true_asset_balance.human * 0.1) 5
          let gs2 := modifyChar gs1 tname (subHumanBy transfer_amount)
          let gs3 := modifyChar gs2 name (addHumanBy transfer_amount)
          (gs3, rng', "Successfully poached talent from " ++ tname ++
            " (gained " ++ fmtPlain1 transfer_amount ++ " human resources)")
        else
          (gs1, rng', "Poaching attempt on " ++ tname ++ " failed")
  else
    (gs, rng, "Poaching action with no target or budget")

/-- Translation of `GameMaster._process_lobbying` (gamemaster.py lines 342-360). -/
def process_lobbying (now : PyDate) (gs : GameState) (rng : PyRandom)
    (name : String) (c : CharacterState) (a : Action) : GameState × PyRandom × String :=
  if truthyS a.lobbying_message && truthyQ a.lobbying_budget then
    let msg := a.lobbying_message.getD ""
    let lbudget := a.lobbying_budget.getD 0
    let year := yearStr now
    let budget := dgetQ c.private_info.budget year 0
    if budget < lbudget then
      (gs, rng, "Insufficient budget for lobbying")
    else
      let gs1 := setChar gs name { c with private_info := { c.private_info with
                   budget := dsetQ c.private_info.budget year (budget - lbudget) } }
      let (u, rng') := randFloat rng
      if u < (0.1 : ℚ) then
        (gs1, rng', "Lobbying campaign backfired: " ++ strTake50 msg ++ "...")
      else
        (gs1, rng', "Launched lobbying campaign: " ++ strTake50 msg ++ "...")
  else
    (gs, rng, "Lobbying action with no message or budget")

/-- Translation of `GameMaster._process_marketing` (gamemaster.py lines 362-374). -/
def process_marketing (now : PyDate) (gs : GameState) (rng : PyRandom)
    (name : String) (c : CharacterState) (a : Action) : GameState × PyRandom × String :=
  if truthyS a.marketing_message && truthyQ a.marketing_budget then
    let msg := a.marketing_message.getD ""
    let mbudget := a.marketing_budget.getD 0
    let year := yearStr now
    let budget := dgetQ c.private_info.budget year 0
    if budget < mbudget then
      (gs, rng, "Insufficient budget for marketing")
    else
      let gs1 := setChar gs name { c with private_info := { c.private_info with
                   budget := dsetQ c.private_info.budget year (budget - mbudget) } }
      (gs1, rng, "Launched marketing campaign: " ++ strTake50 msg ++ "...")
  else
    (gs, rng, "Marketing action with no message or budget")

/-- The last-five truncation applied to `recent_actions`
(`character.recent_actions[-5:]`). -/
def lastFive (l : List String) : List String := l.drop (l.length - 5)

/-- Translation of `GameMaster._process_action` (gamemaster.py lines 96-131): dispatch on
the action type, then append the summary to the bounded `recent_actions`
log of the acting character.  An unknown `character_name` returns without
any effect.  (The Python method also stamps `action.round_number`; the
stamped copy is never read again inside the engine, so the model leaves
the submitted action value unchanged.) -/
def process_action (now : PyDate) (gs : GameState) (rng : PyRandom) (a : Action) :
    GameState × PyRandom :=
  match gs.get_character a.character_name with
  | none => (gs, rng)
  | some character =>
    let r : GameState × PyRandom × String :=
      match a.action_type with
      | ActionType.FUNDRAISE => process_fundraising now gs rng a.character_name character a
      | ActionType.CREATE_RESEARCH_PROJECT =>
          process_create_research now gs rng a.character_name character a
      | ActionType.CANCEL_RESEARCH_PROJECT =>
          process_cancel_research gs rng a.character_name character a
      | ActionType.INVEST_CAPITAL =>
          process_capital_investment now gs rng a.character_name character a
      | ActionType.SELL_CAPITAL => process_sell_capital now gs rng a.character_name character a
      | ActionType.ESPIONAGE => process_espionage gs rng a.character_name character a
      | ActionType.POACH_TALENT => process_poaching gs rng a.character_name character a
      | ActionType.LOBBY => process_lobbying now gs rng a.character_name character a
      | ActionType.MARKETING => process_marketing now gs rng a.character_name character a
      | ActionType.MESSAGE => (gs, rng, "")
    let entry := "Round " ++ toString r.1.round_number ++ ": " ++ r.2.2
    (modifyChar r.1 a.character_name fun c =>
       { c with recent_actions := lastFive (c.recent_actions ++ [entry]) },
     r.2.1)

/-- Translation of `GameMaster._process_messages` (gamemaster.py lines 81-94): deliver
each attached message payload to its recipient, silently dropping unknown
recipients. -/
def process_messages (gs : GameState) (actions : List Action) : GameState :=
  actions.foldl
    (fun gs a =>
      match a.message with
      | some mp =>
        match gs.get_character mp.to_character with
        | some _ =>
          modifyChar gs mp.to_character fun tc =>
            tc.add_message
              ⟨a.character_name, mp.to_character, mp.content, gs.current_date, gs.round_number⟩
        | none => gs
      | none => gs)
    gs

/-- The per-project body of `_update_research_projects` (gamemaster.py
lines 380-391): active projects advance by
`min(0.1 + human_committed / 100, 0.3)`, capped at `1.0`, and flip to
completed at progress `>= 1.0`; other projects are untouched. -/
def tickProject (p : ResearchProject) : ResearchProject :=
  if p.status = "active" then
    let progress_rate := min (0.1 + p.committed_assets.human / 100) (0.3 : ℚ)
    let prog := min (p.progress + progress_rate) 1
    { p with progress := prog, status := if 1 ≤ prog then "completed" else p.status }
  else p

/-- The per-project budget deduction of `_update_research_projects`
(gamemaster.py lines 393-397): for each active project in turn, deduct its
committed annual budget from the owner when sufficient funds remain.  The
active test reads the pre-update status, so this folds over the original
project list. -/
def deductProjectBudgets (year : String) :
    List ResearchProject → List (String × ℚ) → List (String × ℚ)
  | [], b => b
  | p :: rest, b =>
    if p.status = "active" then
      let budget := dgetQ b year 0
      let b' := if p.committed_budget ≤ budget then dsetQ b year (budget - p.committed_budget)
                else b
      deductProjectBudgets year rest b'
    else deductProjectBudgets year rest b

/-- One character's update in `_update_research_projects`.  The Python
loop interleaves the project mutation and the budget deduction; the two
are independent (the tick reads only project fields, the deduction reads
only the pre-tick status, the committed budget and the budget dict), so
they are modelled as a map over the projects and a fold for the budget. -/
def update_projects_char (year : String) (c : CharacterState) : CharacterState :=
  { c with private_info := { c.private_info with
      projects := c.private_info.projects.map tickProject,
      budget := deductProjectBudgets year c.private_info.projects c.private_info.budget } }

/-- Translation of `GameMaster._update_research_projects` (gamemaster.py lines 376-397). -/
def update_research_projects (gs : GameState) : GameState :=
  { gs with characters := gs.characters.map fun kc =>
      (kc.1, update_projects_char (yearStr gs.current_date) kc.2) }

/-- The private-update string synthesized for one successful espionage
attempt (gamemaster.py lines 410-416), disclosing the target's
current-year budget and three true asset figures. -/
def espionageUpdateStr (target focus : String) (b : ℚ) (ab : AssetBalance) : String :=
  "Espionage on " ++ target ++ " (" ++ focus ++ "): " ++
    "Discovered budget ≈$" ++ fmtComma0 b ++ ", " ++ "assets: " ++
    "tech=" ++ fmtPlain1 ab.technical_capability ++ ", " ++
    "capital=" ++ fmtPlain1 ab.capital ++ ", " ++
    "human=" ++ fmtPlain1 ab.human

/-- Drain one character's pending espionage buffer (the loop body of
`_simulate_espionage_results`): successful attempts against a still-known
target append a disclosure string to the character's pending private
updates; the espionage buffer is cleared unconditionally. -/
def simulateEspChar (gs : GameState) (name : String) : GameState :=
  match gs.get_character name with
  | none => gs
  | some c =>
    let updates := c.espionage_results.foldl
      (fun acc r =>
        if r.success then
          match gs.get_character r.target with
          | some target =>
            acc ++ [espionageUpdateStr r.target r.focus
                     (dgetQ target.private_info.budget (yearStr gs.current_date) 0)
                     target.private_info.true_asset_balance]
          | none => acc
        else acc)
      []
    setChar gs name { c with private_updates := c.private_updates ++ updates,
                             espionage_results := [] }

/-- Translation of `GameMaster._simulate_espionage_results` (gamemaster.py lines
399-418). -/
def simulate_espionage_results (gs : GameState) : GameState :=
  (gs.characters.map Prod.fst).foldl simulateEspChar gs

/-- Translation of `GameMaster._simulate_information_leaks` (gamemaster.py lines
420-436): with probability 0.05 pick one character at random and append a
public event disclosing approximate budget and human resources.
(`random.choice` on an empty character list would raise in Python; the
model appends nothing in that vacuous case.) -/
def simulate_information_leaks (gs : GameState) (rng : PyRandom) : GameState × PyRandom :=
  let ur := randFloat rng
  if ur.1 < (0.05 : ℚ) then
    let ir := randChoice ur.2 gs.characters.length
    match gs.characters.get? ir.1 with
    | some kc =>
      let leak_info := "Leaked intelligence reports suggest " ++ kc.2.name ++
        " has approximately $" ++
        fmtComma0 (dgetQ kc.2.private_info.budget (yearStr gs.current_date) 0) ++
        " in budget and " ++ fmtPlain1 kc.2.private_info.true_asset_balance.human ++
        " human resources."
      ({ gs with public_events := gs.public_events ++ [leak_info] }, ir.2)
    | none => (gs, ir.2)
  else (gs, ur.2)

/-- Translation of `GameMaster._introduce_random_events` (gamemaster.py lines 438-452):
with probability 0.10 append one catalog event, prefixed with the round
number, to public events. -/
def introduce_random_events (gs : GameState) (rng : PyRandom) : GameState × PyRandom :=
  let ur := randFloat rng
  if ur.1 < (0.1 : ℚ) then
    let ir := randChoice ur.2 RANDOM_EVENTS.length
    match RANDOM_EVENTS.get? ir.1 with
    | some event =>
      ({ gs with public_events := gs.public_events ++
          ["Round " ++ toString gs.round_number ++ ": " ++ event] }, ir.2)
    | none => (gs, ir.2)
  else (gs, ur.2)

/-- Python renders `None` inside an f-string as the text `None`. -/
def pyOptStr (o : Option String) : String :=
  match o with
  | some s => s
  | none => "None"

/-- Translation of `GameMaster._describe_action` (gamemaster.py lines 541-563). -/
def describe_action (a : Action) : String :=
  match a.action_type with
  | ActionType.FUNDRAISE =>
      "Attempted fundraising of $" ++ fmtComma0 (a.fundraising_amount.getD 0)
  | ActionType.CREATE_RESEARCH_PROJECT =>
      "Created research project: " ++
        (match a.research_project with | some pd => pd.name | none => "unknown")
  | ActionType.CANCEL_RESEARCH_PROJECT =>
      "Cancelled research project: " ++ pyOptStr a.project_name_to_cancel
  | ActionType.INVEST_CAPITAL =>
      "Invested $" ++ fmtComma0 (a.capital_investment.getD 0) ++ " in capital"
  | ActionType.SELL_CAPITAL =>
      "Sold $" ++ fmtComma0 (a.capital_to_sell.getD 0) ++ " in capital"
  | ActionType.ESPIONAGE =>
      "Conducted espionage on " ++
        (match a.espionage with | some e => e.target_character | none => "unknown")
  | ActionType.POACH_TALENT =>
      "Attempted to poach talent from " ++ pyOptStr a.poaching_target
  | ActionType.LOBBY => "Launched lobbying campaign"
  | ActionType.MARKETING => "Launched marketing campaign"
  | ActionType.MESSAGE =>
      "Sent message to " ++
        (match a.message with | some m => m.to_character | none => "unknown")

/-- Group actions by character name in first-appearance order (the
`by_character` dict of `_create_action_summary`). -/
def addToGroup : List (String × List Action) → String → Action → List (String × List Action)
  | [], n, a => [(n, [a])]
  | (k, l) :: rest, n, a =>
    if k = n then (k, l ++ [a]) :: rest else (k, l) :: addToGroup rest n a

/-- The grouped action lists of `_create_action_summary`. -/
def groupByCharacter (actions : List Action) : List (String × List Action) :=
  actions.foldl (fun acc a => addToGroup acc a.character_name a) []

/-- Translation of `GameMaster._create_action_summary` (gamemaster.py lines 512-539). -/
def create_action_summary (gs : GameState) (actions : List Action) : String :=
  let header := "Round " ++ toString gs.round_number ++ " Summary (" ++
    fmtDate gs.current_date ++ "):"
  let charParts := (groupByCharacter actions).foldl
    (fun parts g =>
      parts ++ ["\n" ++ g.1 ++ ":"] ++ g.2.map (fun a => "  - " ++ describe_action a))
    []
  let eventParts :=
    if gs.public_events ≠ ([] : List String) then
      ["\nPublic Events:"] ++
        (gs.public_events.drop (gs.public_events.length - 5)).map (fun e => "  - " ++ e)
    else []
  String.intercalate "\n" ([header] ++ charParts ++ eventParts)

/-- The research-project status lines added to each character's private
update (gamemaster.py lines 497-503). -/
def projectStatusLines (projects : List ResearchProject) : List String :=
  projects.foldl
    (fun acc p =>
      if p.status = "completed" then
        acc ++ ["Research project \x27" ++ p.name ++ "\x27 has been completed!"]
      else if p.status = "active" then
        acc ++ ["Research project \x27" ++ p.name ++ "\x27 is " ++
                fmtPlain0 (p.progress * 100) ++ "% complete."]
      else acc)
    []

/-- The per-character body of `_generate_summaries` (gamemaster.py lines
488-505): drain the pending private-update buffer plus project status
lines into that character's summary string, clearing the buffer. -/
def summarizeStep (st : GameState × List (String × String)) (name : String) :
    GameState × List (String × String) :=
  match st.1.get_character name with
  | none => st
  | some c =>
    let private_updates := c.private_updates ++ projectStatusLines c.private_info.projects
    let st1 := setChar st.1 name { c with private_updates := [] }
    let summary :=
      if private_updates ≠ ([] : List String) then String.intercalate "\n" private_updates
      else "No significant private updates."
    (st1, st.2 ++ [(name, summary)])

/-- Translation of `GameMaster._generate_summaries` (gamemaster.py lines 476-510): build
the global action summary, drain each character (via `summarizeStep`),
and append the global summary to `game_history`. -/
def generate_summaries (gs : GameState) (actions : List Action) :
    GameState × List (String × String) :=
  let action_summary := create_action_summary gs actions
  let r := (gs.characters.map Prod.fst).foldl summarizeStep (gs, [])
  ({ r.1 with game_history := r.1.game_history ++ [action_summary] }, r.2)

/-- Translation of `GameMaster.process_round` (gamemaster.py lines 40-79): the fixed
eight-phase round-resolution pipeline.  Returns the mutated game state,
the advanced random stream, and the per-character private-update map (an
association list in character order). -/
def process_round (now : PyDate) (rng : PyRandom) (gs : GameState) (actions : List Action) :
    GameState × PyRandom × List (String × String) :=
  let gs1 := gs.increment_round
  let gs2 := process_messages gs1 actions
  let p3 := actions.foldl
    (fun (st : GameState × PyRandom) a => process_action now st.1 st.2 a) (gs2, rng)
  let gs4 := update_research_projects p3.1
  let gs5 := simulate_espionage_results gs4
  let p6 := simulate_information_leaks gs5 p3.2
  let p7 := introduce_random_events p6.1 p6.2
  let p8 := generate_summaries p7.1 actions
  (p8.1, p7.2, p8.2)

end GameMaster

/-- The `AssetBalance` demanded by a project payload (the `required`
record built at the top of `_process_create_research`). -/
def requiredOf (pd : ResearchProjectPayload) : AssetBalance :=
  ⟨dgetQ pd.required_assets "technical_capability" 0,
   dgetQ pd.required_assets "capital" 0,
   dgetQ pd.required_assets "human" 0⟩

/-- States that `gs'` carries the same round number and date as `gs`. -/
def sameClock (gs gs' : GameState) : Prop :=
  gs'.round_number = gs.round_number ∧ gs'.current_date = gs.current_date

/-- States that `l'` agrees with `l` at every position holding a completed project:
the relation used to state that completed projects are never mutated
again. -/
def completedFixed (l l' : List ResearchProject) : Prop :=
  ∀ i p, l.get? i = some p → p.status = "completed" → l'.get? i = some p

/-- Every character survives from `gs` to `gs'` with its completed
projects intact and in place. -/
def gsCompletedFixed (gs gs' : GameState) : Prop :=
  ∀ name c, gs.get_character name = some c →
    ∃ c', gs'.get_character name = some c' ∧
      completedFixed c.private_info.projects c'.private_info.projects

/-- The true human-resource figure of the named character (0 when the
name is unknown); the observation used by the poaching-conservation
claim. -/
def humanOf (gs : GameState) (n : String) : ℚ :=
  match gs.get_character n with
  | some c => c.private_info.true_asset_balance.human
  | none => 0

/-! ## Concrete test fixtures

A small two-character world used by the concrete witnesses below.  The
simulated start date is 1970-01-01 (day 0), so current-year budget keys
are "1970"; `nowY0`/`nowY1` are wall-clock dates in 1970 and 1971. -/

/-- An empty public view for the fixture characters. -/
def pvW : PublicView := ⟨⟨0, 0, 0⟩, "", "", []⟩

/-- Fixture character constructor. -/
def mkCharW (name : String) (tc cap hum : ℚ) (budget : List (String × ℚ))
    (projects : List ResearchProject) : CharacterState :=
  { name := name,
    private_info := ⟨⟨tc, cap, hum⟩, budget, projects, "", ""⟩,
    public_view := pvW, recent_actions := [], messages := [],
    espionage_results := [], private_updates := [] }

/-- Fixture: an active research project at 95% progress. -/
def projActiveW : ResearchProject :=
  { name := "P", description := "", target_completion_date := ⟨400⟩,
    committed_budget := 50, committed_assets := ⟨5, 10, 20⟩,
    status := "active", progress := 0.95, realistic_goals := none }

/-- Fixture: an already-completed research project. -/
def projDoneW : ResearchProject :=
  { name := "D", description := "", target_completion_date := ⟨300⟩,
    committed_budget := 40, committed_assets := ⟨1, 2, 3⟩,
    status := "completed", progress := 1, realistic_goals := none }

/-- Fixture character Alice. -/
def aliceW : CharacterState := mkCharW "Alice" 50 100 30 [("1970", 1000)] []

/-- Fixture character Bob (owns one completed project). -/
def bobW : CharacterState := mkCharW "Bob" 20 40 10 [("1970", 500)] [projDoneW]

/-- Fixture world: Alice and Bob at simulated date 1970-01-01, round 0. -/
def gsW : GameState :=
  { current_date := ⟨0⟩, round_number := 0,
    characters := [("Alice", aliceW), ("Bob", bobW)],
    public_events := [], game_history := [] }

/-- A wall-clock date in 1970. -/
def nowY0 : PyDate := ⟨0⟩

/-- A wall-clock date in 1971. -/
def nowY1 : PyDate := ⟨365⟩

/-- A random stream that always draws the same value (used to force a
success or failure branch in witnesses). -/
def constRand (v : ℚ) : PyRandom := ⟨fun _ => v, 0⟩

/-- Fixture action: Alice invests 500 of budget into capital. -/
def investW : Action :=
  { character_name := "Alice", action_type := ActionType.INVEST_CAPITAL,
    capital_investment := some 500 }

/-- Fixture action: Alice attempts a 1000 fundraise. -/
def fundraiseW : Action :=
  { character_name := "Alice", action_type := ActionType.FUNDRAISE,
    fundraising_amount := some 1000 }

/-- Fixture action: a FUNDRAISE carrying the (falsy) amount 0. -/
def fundraiseZeroW : Action :=
  { character_name := "Alice", action_type := ActionType.FUNDRAISE,
    fundraising_amount := some 0 }

/-- Fixture payload: a project named "X" that Alice can afford. -/
def pdW : ResearchProjectPayload :=
  { name := "X", description := "", target_completion_date := "1970-06-01",
    annual_budget := 100,
    required_assets := [("technical_capability", 10), ("capital", 20), ("human", 4)] }

/-- Fixture payload: an affordable project whose name is the empty
string. -/
def pdEmptyW : ResearchProjectPayload :=
  { name := "", description := "", target_completion_date := "junk",
    annual_budget := 10, required_assets := [] }

/-- Fixture action: Alice creates the project "X". -/
def createW : Action :=
  { character_name := "Alice", action_type := ActionType.CREATE_RESEARCH_PROJECT,
    research_project := some pdW }

/-- Fixture action: Alice cancels the project "X". -/
def cancelW : Action :=
  { character_name := "Alice", action_type := ActionType.CANCEL_RESEARCH_PROJECT,
    project_name_to_cancel := some "X" }

/-- Fixture action: Alice creates the empty-named project. -/
def createEmptyW : Action :=
  { character_name := "Alice", action_type := ActionType.CREATE_RESEARCH_PROJECT,
    research_project := some pdEmptyW }

/-- Fixture action: a CANCEL naming the empty string. -/
def cancelEmptyW : Action :=
  { character_name := "Alice", action_type := ActionType.CANCEL_RESEARCH_PROJECT,
    project_name_to_cancel := some "" }

/-- The project record created from `pdW` on 1970-01-01 (target date
1970-06-01 is day 151; the realism heuristic does not fire). -/
def projXW : ResearchProject :=
  { name := "X", description := "", target_completion_date := ⟨151⟩,
    committed_budget := 100, committed_assets := ⟨10, 20, 4⟩,
    status := "active", progress := 0, realistic_goals := none }

/-! ## Basic lemmas about the state combinators -/

@[simp]
theorem setChar_round_number (gs : GameState) (n : String) (c : CharacterState) :
    (setChar gs n c).round_number = gs.round_number := rfl

@[simp]
theorem setChar_current_date (gs : GameState) (n : String) (c : CharacterState) :
    (setChar gs n c).current_date = gs.current_date := rfl

@[simp]
theorem setChar_public_events (gs : GameState) (n : String) (c : CharacterState) :
    (setChar gs n c).public_events = gs.public_events := rfl

@[simp]
theorem setChar_game_history (gs : GameState) (n : String) (c : CharacterState) :
    (setChar gs n c).game_history = gs.game_history := rfl

@[simp]
theorem modifyChar_round_number (gs : GameState) (n : String) (f : CharacterState → CharacterState) :
    (modifyChar gs n f).round_number = gs.round_number := by
  unfold modifyChar; split <;> rfl

@[simp]
theorem modifyChar_current_date (gs : GameState) (n : String) (f : CharacterState → CharacterState) :
    (modifyChar gs n f).current_date = gs.current_date := by
  unfold modifyChar; split <;> rfl

@[simp]
theorem modifyChar_public_events (gs : GameState) (n : String)
    (f : CharacterState → CharacterState) :
    (modifyChar gs n f).public_events = gs.public_events := by
  unfold modifyChar; split <;> rfl

@[simp]
theorem modifyChar_game_history (gs : GameState) (n : String)
    (f : CharacterState → CharacterState) :
    (modifyChar gs n f).game_history = gs.game_history := by
  unfold modifyChar; split <;> rfl

theorem lookupChar_putChar_self {l : List (String × CharacterState)} {n : String}
    {c0 : CharacterState} (h : lookupChar l n = some c0) (c : CharacterState) :
    lookupChar (putChar l n c) n = some c := by
  induction l with
  | nil => simp [lookupChar] at h
  | cons kv rest ih =>
    by_cases hk : kv.1 = n
    · simp [lookupChar, putChar, hk]
    · simp only [lookupChar, putChar, hk, if_false] at h ⊢
      exact ih h

theorem lookupChar_putChar_ne {l : List (String × CharacterState)} {n m : String}
    (h : m ≠ n) (c : CharacterState) :
    lookupChar (putChar l n c) m = lookupChar l m := by
  induction l with
  | nil => simp [lookupChar, putChar]
  | cons kv rest ih =>
    by_cases hk : kv.1 = n
    · simp [lookupChar, putChar, hk, Ne.symm h]
    · simp only [lookupChar, putChar, hk, if_false]
      by_cases hm : kv.1 = m <;> simp [hm, ih]

theorem get_character_setChar_self {gs : GameState} {n : String} {c0 : CharacterState}
    (h : gs.get_character n = some c0) (c : CharacterState) :
    (setChar gs n c).get_character n = some c :=
  lookupChar_putChar_self h c

theorem get_character_setChar_ne {gs : GameState} {n m : String}
    (h : m ≠ n) (c : CharacterState) :
    (setChar gs n c).get_character m = gs.get_character m :=
  lookupChar_putChar_ne h c

theorem modifyChar_eq_setChar {gs : GameState} {n : String} {c : CharacterState}
    (f : CharacterState → CharacterState) (h : gs.get_character n = some c) :
    modifyChar gs n f = setChar gs n (f c) := by
  unfold modifyChar
  rw [h]

theorem humanOf_eq_of_get {gs : GameState} {n : String} {c : CharacterState}
    (h : gs.get_character n = some c) :
    humanOf gs n = c.private_info.true_asset_balance.human := by
  unfold humanOf
  rw [h]

theorem humanOf_setChar_ne {gs : GameState} {n m : String} (c : CharacterState)
    (h : m ≠ n) : humanOf (setChar gs n c) m = humanOf gs m := by
  unfold humanOf
  rw [get_character_setChar_ne h]

/-- The two in-place human-resource mutations of a poaching transfer
conserve the sum of the two distinct characters' human figures. -/
theorem humanOf_transfer (gs1 : GameState) (name tname : String) (t : ℚ)
    (target : CharacterState)
    (h1 : gs1.get_character tname = some target)
    (hsome : (gs1.get_character name).isSome = true)
    (hne : name ≠ tname) :
    humanOf (modifyChar (modifyChar gs1 tname (GameMaster.subHumanBy t)) name
        (GameMaster.addHumanBy t)) name +
      humanOf (modifyChar (modifyChar gs1 tname (GameMaster.subHumanBy t)) name
        (GameMaster.addHumanBy t)) tname =
      humanOf gs1 name + humanOf gs1 tname := by
  obtain ⟨cn, hcn⟩ := Option.isSome_iff_exists.mp hsome
  rw [modifyChar_eq_setChar _ h1]
  have h2name : (setChar gs1 tname (GameMaster.subHumanBy t target)).get_character name =
      some cn := by
    rw [get_character_setChar_ne hne]
    exact hcn
  rw [modifyChar_eq_setChar _ h2name]
  have hfn : (setChar (setChar gs1 tname (GameMaster.subHumanBy t target)) name
      (GameMaster.addHumanBy t cn)).get_character name =
      some (GameMaster.addHumanBy t cn) :=
    get_character_setChar_self h2name _
  have h2t : (setChar gs1 tname (GameMaster.subHumanBy t target)).get_character tname =
      some (GameMaster.subHumanBy t target) :=
    get_character_setChar_self h1 _
  have hft : (setChar (setChar gs1 tname (GameMaster.subHumanBy t target)) name
      (GameMaster.addHumanBy t cn)).get_character tname =
      some (GameMaster.subHumanBy t target) := by
    rw [get_character_setChar_ne (Ne.symm hne)]
    exact h2t
  rw [humanOf_eq_of_get hfn, humanOf_eq_of_get hft,
      humanOf_eq_of_get hcn, humanOf_eq_of_get h1]
  unfold GameMaster.addHumanBy GameMaster.subHumanBy
  dsimp only
  ring

/-! ## Clock preservation

No phase other than phase 1 (`increment_round`) touches `round_number` or
`current_date`; these lemmas distribute that fact over the handlers, the
phases, and finally `process_round` itself (claim about the per-round
clock step). -/

/-! ## Completed projects are never mutated again: support lemmas -/

theorem completedFixed_refl (l : List ResearchProject) : completedFixed l l :=
  fun _ _ hi _ => hi

theorem completedFixed_of_eq {l l' : List ResearchProject} (h : l' = l) :
    completedFixed l l' := fun _ _ hi _ => h ▸ hi

theorem completedFixed_trans {a b c : List ResearchProject}
    (h1 : completedFixed a b) (h2 : completedFixed b c) : completedFixed a c :=
  fun i p hi hp => h2 i p (h1 i p hi hp) hp

theorem completedFixed_append (l t : List ResearchProject) :
    completedFixed l (l ++ t) := by
  intro i p hi hp
  induction l generalizing i with
  | nil => cases i <;> simp [List.get?] at hi
  | cons x xs ih =>
    cases i with
    | zero => simpa using hi
    | succ j =>
      simp only [List.cons_append, List.get?] at hi ⊢
      exact ih j hi

theorem completedFixed_map {f : ResearchProject → ResearchProject}
    (hf : ∀ p, p.status = "completed" → f p = p) (l : List ResearchProject) :
    completedFixed l (l.map f) := by
  intro i p hi hp
  rw [List.get?_map, hi]
  simp [hf p hp]

theorem gcf_refl (gs : GameState) : gsCompletedFixed gs gs :=
  fun _ c hc => ⟨c, hc, completedFixed_refl _⟩

theorem gcf_trans {a b c : GameState}
    (h1 : gsCompletedFixed a b) (h2 : gsCompletedFixed b c) : gsCompletedFixed a c := by
  intro n ca hca
  obtain ⟨cb, hcb, hf1⟩ := h1 n ca hca
  obtain ⟨cc, hcc, hf2⟩ := h2 n cb hcb
  exact ⟨cc, hcc, completedFixed_trans hf1 hf2⟩

theorem gcf_of_chars_eq {gs gs' : GameState} (h : gs'.characters = gs.characters) :
    gsCompletedFixed gs gs' := by
  intro n c hc
  refine ⟨c, ?_, completedFixed_refl _⟩
  unfold GameState.get_character at hc ⊢
  rw [h]
  exact hc

theorem gcf_setChar {gs : GameState} {n : String} {c c' : CharacterState}
    (hc : gs.get_character n = some c)
    (hcf : completedFixed c.private_info.projects c'.private_info.projects) :
    gsCompletedFixed gs (setChar gs n c') := by
  intro m cm hcm
  by_cases hmn : m = n
  · subst hmn
    rw [hcm] at hc
    injection hc with hc
    subst hc
    exact ⟨c', get_character_setChar_self hcm c', hcf⟩
  · exact ⟨cm, (get_character_setChar_ne hmn c').trans hcm, completedFixed_refl _⟩

theorem gcf_setChar_projEq {gs : GameState} {n : String} {c c' : CharacterState}
    (hc : gs.get_character n = some c)
    (hp : c'.private_info.projects = c.private_info.projects) :
    gsCompletedFixed gs (setChar gs n c') :=
  gcf_setChar hc (completedFixed_of_eq hp)

theorem gcf_modifyChar_projEq {gs : GameState} {n : String}
    (f : CharacterState → CharacterState)
    (hf : ∀ c, (f c).private_info.projects = c.private_info.projects) :
    gsCompletedFixed gs (modifyChar gs n f) := by
  unfold modifyChar
  cases hc : gs.get_character n with
  | none => exact gcf_refl gs
  | some c => exact gcf_setChar_projEq hc (hf c)

theorem sameClock_refl (gs : GameState) : sameClock gs gs := ⟨rfl, rfl⟩

theorem sameClock_trans {a b c : GameState} (h1 : sameClock a b) (h2 : sameClock b c) :
    sameClock a c := ⟨h2.1.trans h1.1, h2.2.trans h1.2⟩

namespace GameMaster

theorem process_fundraising_clock (now : PyDate) (gs : GameState) (rng : PyRandom)
    (n : String) (c : CharacterState) (a : Action) :
    sameClock gs (process_fundraising now gs rng n c a).1 := by
  unfold process_fundraising
  refine ⟨?_, ?_⟩
  iterate 6 (all_goals repeat' split
             all_goals try simp)

theorem process_create_research_clock (now : PyDate) (gs : GameState) (rng : PyRandom)
    (n : String) (c : CharacterState) (a : Action) :
    sameClock gs (process_create_research now gs rng n c a).1 := by
  unfold process_create_research
  refine ⟨?_, ?_⟩
  iterate 6 (all_goals repeat' split
             all_goals try simp)

theorem process_cancel_research_clock (gs : GameState) (rng : PyRandom)
    (n : String) (c : CharacterState) (a : Action) :
    sameClock gs (process_cancel_research gs rng n c a).1 := by
  unfold process_cancel_research
  refine ⟨?_, ?_⟩
  iterate 6 (all_goals repeat' split
             all_goals try simp)

theorem process_capital_investment_clock (now : PyDate) (gs : GameState) (rng : PyRandom)
    (n : String) (c : CharacterState) (a : Action) :
    sameClock gs (process_capital_investment now gs rng n c a).1 := by
  unfold process_capital_investment
  refine ⟨?_, ?_⟩
  iterate 6 (all_goals repeat' split
             all_goals try simp)

theorem process_sell_capital_clock (now : PyDate) (gs : GameState) (rng : PyRandom)
    (n : String) (c : CharacterState) (a : Action) :
    sameClock gs (process_sell_capital now gs rng n c a).1 := by
  unfold process_sell_capital
  refine ⟨?_, ?_⟩
  iterate 6 (all_goals repeat' split
             all_goals try simp)

theorem process_espionage_clock (gs : GameState) (rng : PyRandom)
    (n : String) (c : CharacterState) (a : Action) :
    sameClock gs (process_espionage gs rng n c a).1 := by
  unfold process_espionage
  refine ⟨?_, ?_⟩
  iterate 6 (all_goals repeat' split
             all_goals try simp)

theorem process_poaching_clock (gs : GameState) (rng : PyRandom)
    (n : String) (c : CharacterState) (a : Action) :
    sameClock gs (process_poaching gs rng n c a).1 := by
  unfold process_poaching
  refine ⟨?_, ?_⟩
  iterate 6 (all_goals repeat' split
             all_goals try simp)

theorem process_lobbying_clock (now : PyDate) (gs : GameState) (rng : PyRandom)
    (n : String) (c : CharacterState) (a : Action) :
    sameClock gs (process_lobbying now gs rng n c a).1 := by
  unfold process_lobbying
  refine ⟨?_, ?_⟩
  iterate 6 (all_goals repeat' split
             all_goals try simp)

theorem process_marketing_clock (now : PyDate) (gs : GameState) (rng : PyRandom)
    (n : String) (c : CharacterState) (a : Action) :
    sameClock gs (process_marketing now gs rng n c a).1 := by
  unfold process_marketing
  refine ⟨?_, ?_⟩
  iterate 6 (all_goals repeat' split
             all_goals try simp)

theorem process_action_clock (now : PyDate) (gs : GameState) (rng : PyRandom) (a : Action) :
    sameClock gs (process_action now gs rng a).1 := by
  unfold process_action
  split
  · exact sameClock_refl gs
  · rename_i character heq
    cases a.action_type
    all_goals dsimp only
    case FUNDRAISE =>
      have h := process_fundraising_clock now gs rng a.character_name character a
      exact ⟨by simp [h.1], by simp [h.2]⟩
    case CREATE_RESEARCH_PROJECT =>
      have h := process_create_research_clock now gs rng a.character_name character a
      exact ⟨by simp [h.1], by simp [h.2]⟩
    case CANCEL_RESEARCH_PROJECT =>
      have h := process_cancel_research_clock gs rng a.character_name character a
      exact ⟨by simp [h.1], by simp [h.2]⟩
    case INVEST_CAPITAL =>
      have h := process_capital_investment_clock now gs rng a.character_name character a
      exact ⟨by simp [h.1], by simp [h.2]⟩
    case SELL_CAPITAL =>
      have h := process_sell_capital_clock now gs rng a.character_name character a
      exact ⟨by simp [h.1], by simp [h.2]⟩
    case ESPIONAGE =>
      have h := process_espionage_clock gs rng a.character_name character a
      exact ⟨by simp [h.1], by simp [h.2]⟩
    case POACH_TALENT =>
      have h := process_poaching_clock gs rng a.character_name character a
      exact ⟨by simp [h.1], by simp [h.2]⟩
    case LOBBY =>
      have h := process_lobbying_clock now gs rng a.character_name character a
      exact ⟨by simp [h.1], by simp [h.2]⟩
    case MARKETING =>
      have h := process_marketing_clock now gs rng a.character_name character a
      exact ⟨by simp [h.1], by simp [h.2]⟩
    case MESSAGE => exact ⟨by simp, by simp⟩

theorem process_messages_clock (actions : List Action) :
    ∀ gs : GameState, sameClock gs (process_messages gs actions) := by
  unfold process_messages
  induction actions with
  | nil => exact fun gs => sameClock_refl gs
  | cons a rest ih =>
    intro gs
    rw [List.foldl_cons]
    refine sameClock_trans ?_ (ih _)
    dsimp only
    split
    · split
      · exact ⟨by simp, by simp⟩
      · exact sameClock_refl gs
    · exact sameClock_refl gs

theorem actions_fold_clock (now : PyDate) (actions : List Action) :
    ∀ st : GameState × PyRandom,
      sameClock st.1
        (actions.foldl (fun (st : GameState × PyRandom) a => process_action now st.1 st.2 a) st).1 := by
  induction actions with
  | nil => exact fun st => sameClock_refl st.1
  | cons a rest ih =>
    intro st
    exact sameClock_trans (process_action_clock now st.1 st.2 a) (ih _)

theorem update_research_projects_clock (gs : GameState) :
    sameClock gs (update_research_projects gs) := ⟨rfl, rfl⟩

theorem simulateEspChar_clock (gs : GameState) (n : String) :
    sameClock gs (simulateEspChar gs n) := by
  unfold simulateEspChar
  split
  · exact sameClock_refl gs
  · exact ⟨by simp, by simp⟩

theorem simulate_espionage_results_clock (gs : GameState) :
    sameClock gs (simulate_espionage_results gs) := by
  unfold simulate_espionage_results
  generalize (gs.characters.map Prod.fst) = names
  induction names generalizing gs with
  | nil => exact sameClock_refl gs
  | cons n rest ih =>
    exact sameClock_trans (simulateEspChar_clock gs n) (ih _)

theorem simulate_information_leaks_clock (gs : GameState) (rng : PyRandom) :
    sameClock gs (simulate_information_leaks gs rng).1 := by
  unfold simulate_information_leaks
  dsimp only
  split
  · split
    · exact ⟨rfl, rfl⟩
    · exact sameClock_refl gs
  · exact sameClock_refl gs

theorem introduce_random_events_clock (gs : GameState) (rng : PyRandom) :
    sameClock gs (introduce_random_events gs rng).1 := by
  unfold introduce_random_events
  dsimp only
  split
  · split
    · exact ⟨rfl, rfl⟩
    · exact sameClock_refl gs
  · exact sameClock_refl gs

theorem summarizeStep_clock (st : GameState × List (String × String)) (n : String) :
    sameClock st.1 (summarizeStep st n).1 := by
  unfold summarizeStep
  split
  · exact sameClock_refl st.1
  · exact ⟨by simp, by simp⟩

theorem summarize_fold_clock (names : List String) :
    ∀ st : GameState × List (String × String),
      sameClock st.1 (names.foldl summarizeStep st).1 := by
  induction names with
  | nil => exact fun st => sameClock_refl st.1
  | cons n rest ih =>
    intro st
    exact sameClock_trans (summarizeStep_clock st n) (ih _)

theorem generate_summaries_clock (gs : GameState) (actions : List Action) :
    sameClock gs (generate_summaries gs actions).1 := by
  unfold generate_summaries
  have h := summarize_fold_clock (gs.characters.map Prod.fst) (gs, [])
  exact ⟨h.1, h.2⟩

theorem process_round_clock (now : PyDate) (rng : PyRandom) (gs : GameState)
    (actions : List Action) :
    sameClock gs.increment_round (process_round now rng gs actions).1 := by
  unfold process_round
  dsimp only
  exact sameClock_trans (process_messages_clock _ _)
    (sameClock_trans (actions_fold_clock now actions _)
      (sameClock_trans (update_research_projects_clock _)
        (sameClock_trans (simulate_espionage_results_clock _)
          (sameClock_trans (simulate_information_leaks_clock _ _)
            (sameClock_trans (introduce_random_events_clock _ _)
              (generate_summaries_clock _ _))))))

/-- C2: for every wall-clock date, random-stream state, game state and
action list, after `process_round` the round number equals the value
before the call plus exactly one, and the current date equals the value
before the call plus the fixed per-round step of 91 days (one quarter). -/
theorem processRound_advances_round_and_date (now : PyDate) (rng : PyRandom)
    (gs : GameState) (actions : List Action) :
    (process_round now rng gs actions).1.round_number = gs.round_number + 1 ∧
    (process_round now rng gs actions).1.current_date = ⟨gs.current_date.days + 91⟩ := by
  have key := process_round_clock now rng gs actions
  exact ⟨key.1, key.2⟩

end GameMaster

/-! ## Completed projects survive each phase -/

/-- A completed project is not touched by the per-round project update. -/
theorem tickProject_completed_id (p : ResearchProject) (hp : p.status = "completed") :
    GameMaster.tickProject p = p := by
  unfold GameMaster.tickProject
  rw [if_neg]
  rw [hp]
  simp

/-- Lemma: `cancelFirst` only rewrites an active project, so positions holding
completed projects are untouched. -/
theorem completedFixed_cancelFirst (pname : String) :
    ∀ (l : List ResearchProject) (res : List ResearchProject × AssetBalance),
      GameMaster.cancelFirst pname l = some res → completedFixed l res.1 := by
  intro l
  induction l with
  | nil => intro res h; simp [GameMaster.cancelFirst] at h
  | cons p rest ih =>
    intro res h
    unfold GameMaster.cancelFirst at h
    split at h
    · rename_i hcond
      injection h with h
      subst h
      intro i q hi hq
      cases i with
      | zero =>
        simp only [List.get?] at hi
        injection hi with hi
        subst hi
        rw [hq] at hcond
        exact absurd hcond.2 (by simp)
      | succ j => simpa using hi
    · split at h
      · rename_i pr' heq'
        injection h with h
        subst h
        intro i q hi hq
        cases i with
        | zero => simpa using hi
        | succ j =>
          have := ih _ heq' j q (by simpa using hi) hq
          simpa using this
      · exact absurd h (by simp)

theorem lookupChar_map (f : CharacterState → CharacterState)
    (l : List (String × CharacterState)) (n : String) :
    lookupChar (l.map fun kc => (kc.1, f kc.2)) n = (lookupChar l n).map f := by
  induction l with
  | nil => rfl
  | cons kv rest ih =>
    by_cases hk : kv.1 = n <;> simp [lookupChar, hk, ih]

namespace GameMaster

theorem gcf_process_fundraising (now : PyDate) (gs : GameState) (rng : PyRandom)
    (n : String) (c : CharacterState) (a : Action) (hc : gs.get_character n = some c) :
    gsCompletedFixed gs (process_fundraising now gs rng n c a).1 := by
  unfold process_fundraising
  iterate 4 (all_goals repeat' split
             all_goals try dsimp only)
  all_goals first
    | exact gcf_refl gs
    | exact gcf_setChar_projEq hc rfl

theorem gcf_process_create_research (now : PyDate) (gs : GameState) (rng : PyRandom)
    (n : String) (c : CharacterState) (a : Action) (hc : gs.get_character n = some c) :
    gsCompletedFixed gs (process_create_research now gs rng n c a).1 := by
  unfold process_create_research
  repeat' split
  all_goals try exact gcf_refl gs
  all_goals dsimp only
  all_goals repeat' split
  all_goals first
    | exact gcf_refl gs
    | exact gcf_setChar hc (completedFixed_append _ _)

theorem gcf_process_cancel_research (gs : GameState) (rng : PyRandom)
    (n : String) (c : CharacterState) (a : Action) (hc : gs.get_character n = some c) :
    gsCompletedFixed gs (process_cancel_research gs rng n c a).1 := by
  unfold process_cancel_research
  split
  · dsimp only
    split
    · rename_i pr heq
      exact gcf_setChar hc (completedFixed_cancelFirst _ _ _ heq)
    · exact gcf_refl gs
  · exact gcf_refl gs

theorem gcf_process_capital_investment (now : PyDate) (gs : GameState) (rng : PyRandom)
    (n : String) (c : CharacterState) (a : Action) (hc : gs.get_character n = some c) :
    gsCompletedFixed gs (process_capital_investment now gs rng n c a).1 := by
  unfold process_capital_investment
  iterate 4 (all_goals repeat' split
             all_goals try dsimp only)
  all_goals first
    | exact gcf_refl gs
    | exact gcf_setChar_projEq hc rfl

theorem gcf_process_sell_capital (now : PyDate) (gs : GameState) (rng : PyRandom)
    (n : String) (c : CharacterState) (a : Action) (hc : gs.get_character n = some c) :
    gsCompletedFixed gs (process_sell_capital now gs rng n c a).1 := by
  unfold process_sell_capital
  iterate 4 (all_goals repeat' split
             all_goals try dsimp only)
  all_goals first
    | exact gcf_refl gs
    | exact gcf_setChar_projEq hc rfl

theorem gcf_process_espionage (gs : GameState) (rng : PyRandom)
    (n : String) (c : CharacterState) (a : Action) (hc : gs.get_character n = some c) :
    gsCompletedFixed gs (process_espionage gs rng n c a).1 := by
  unfold process_espionage
  iterate 4 (all_goals repeat' split
             all_goals try dsimp only)
  all_goals first
    | exact gcf_refl gs
    | exact gcf_setChar_projEq hc rfl

theorem gcf_process_poaching (gs : GameState) (rng : PyRandom)
    (n : String) (c : CharacterState) (a : Action) (hc : gs.get_character n = some c) :
    gsCompletedFixed gs (process_poaching gs rng n c a).1 := by
  unfold process_poaching
  split
  · dsimp only
    split
    · exact gcf_refl gs
    · split
      · exact gcf_refl gs
      · try dsimp only
        split
        · refine gcf_trans (gcf_setChar_projEq hc ?_)
            (gcf_trans (gcf_modifyChar_projEq _ ?_) (gcf_modifyChar_projEq _ ?_))
          · rfl
          · exact fun t => rfl
          · exact fun t => rfl
        · exact gcf_setChar_projEq hc rfl
  · exact gcf_refl gs

theorem gcf_process_lobbying (now : PyDate) (gs : GameState) (rng : PyRandom)
    (n : String) (c : CharacterState) (a : Action) (hc : gs.get_character n = some c) :
    gsCompletedFixed gs (process_lobbying now gs rng n c a).1 := by
  unfold process_lobbying
  iterate 4 (all_goals repeat' split
             all_goals try dsimp only)
  all_goals first
    | exact gcf_refl gs
    | exact gcf_setChar_projEq hc rfl

theorem gcf_process_marketing (now : PyDate) (gs : GameState) (rng : PyRandom)
    (n : String) (c : CharacterState) (a : Action) (hc : gs.get_character n = some c) :
    gsCompletedFixed gs (process_marketing now gs rng n c a).1 := by
  unfold process_marketing
  iterate 4 (all_goals repeat' split
             all_goals try dsimp only)
  all_goals first
    | exact gcf_refl gs
    | exact gcf_setChar_projEq hc rfl

theorem gcf_process_action (now : PyDate) (gs : GameState) (rng : PyRandom) (a : Action) :
    gsCompletedFixed gs (process_action now gs rng a).1 := by
  unfold process_action
  split
  · exact gcf_refl gs
  · rename_i character heq
    cases a.action_type
    all_goals dsimp only
    case FUNDRAISE =>
      exact gcf_trans (gcf_process_fundraising now gs rng a.character_name character a heq)
        (gcf_modifyChar_projEq _ (fun t => rfl))
    case CREATE_RESEARCH_PROJECT =>
      exact gcf_trans (gcf_process_create_research now gs rng a.character_name character a heq)
        (gcf_modifyChar_projEq _ (fun t => rfl))
    case CANCEL_RESEARCH_PROJECT =>
      exact gcf_trans (gcf_process_cancel_research gs rng a.character_name character a heq)
        (gcf_modifyChar_projEq _ (fun t => rfl))
    case INVEST_CAPITAL =>
      exact gcf_trans (gcf_process_capital_investment now gs rng a.character_name character a heq)
        (gcf_modifyChar_projEq _ (fun t => rfl))
    case SELL_CAPITAL =>
      exact gcf_trans (gcf_process_sell_capital now gs rng a.character_name character a heq)
        (gcf_modifyChar_projEq _ (fun t => rfl))
    case ESPIONAGE =>
      exact gcf_trans (gcf_process_espionage gs rng a.character_name character a heq)
        (gcf_modifyChar_projEq _ (fun t => rfl))
    case POACH_TALENT =>
      exact gcf_trans (gcf_process_poaching gs rng a.character_name character a heq)
        (gcf_modifyChar_projEq _ (fun t => rfl))
    case LOBBY =>
      exact gcf_trans (gcf_process_lobbying now gs rng a.character_name character a heq)
        (gcf_modifyChar_projEq _ (fun t => rfl))
    case MARKETING =>
      exact gcf_trans (gcf_process_marketing now gs rng a.character_name character a heq)
        (gcf_modifyChar_projEq _ (fun t => rfl))
    case MESSAGE => exact gcf_modifyChar_projEq _ (fun t => rfl)

theorem gcf_process_messages (actions : List Action) :
    ∀ gs : GameState, gsCompletedFixed gs (process_messages gs actions) := by
  unfold process_messages
  induction actions with
  | nil => exact fun gs => gcf_refl gs
  | cons a rest ih =>
    intro gs
    rw [List.foldl_cons]
    refine gcf_trans ?_ (ih _)
    dsimp only
    split
    · split
      · exact gcf_modifyChar_projEq _ (fun t => rfl)
      · exact gcf_refl gs
    · exact gcf_refl gs

theorem gcf_actions_fold (now : PyDate) (actions : List Action) :
    ∀ st : GameState × PyRandom,
      gsCompletedFixed st.1
        (actions.foldl (fun (st : GameState × PyRandom) a => process_action now st.1 st.2 a) st).1 := by
  induction actions with
  | nil => exact fun st => gcf_refl st.1
  | cons a rest ih =>
    intro st
    exact gcf_trans (gcf_process_action now st.1 st.2 a) (ih _)

theorem gcf_update_research_projects (gs : GameState) :
    gsCompletedFixed gs (update_research_projects gs) := by
  intro n c hc
  refine ⟨update_projects_char (yearStr gs.current_date) c, ?_, ?_⟩
  · show lookupChar _ n = _
    unfold update_research_projects
    dsimp only
    rw [lookupChar_map]
    unfold GameState.get_character at hc
    rw [hc]
    rfl
  · exact completedFixed_map tickProject_completed_id c.private_info.projects

theorem gcf_simulateEspChar (gs : GameState) (n : String) :
    gsCompletedFixed gs (simulateEspChar gs n) := by
  unfold simulateEspChar
  split
  · exact gcf_refl gs
  · rename_i c heq
    exact gcf_setChar_projEq heq rfl

theorem gcf_simulate_espionage_results (gs : GameState) :
    gsCompletedFixed gs (simulate_espionage_results gs) := by
  unfold simulate_espionage_results
  generalize (gs.characters.map Prod.fst) = names
  induction names generalizing gs with
  | nil => exact gcf_refl gs
  | cons n rest ih =>
    exact gcf_trans (gcf_simulateEspChar gs n) (ih _)

theorem gcf_simulate_information_leaks (gs : GameState) (rng : PyRandom) :
    gsCompletedFixed gs (simulate_information_leaks gs rng).1 := by
  unfold simulate_information_leaks
  dsimp only
  split
  · split
    · exact gcf_of_chars_eq rfl
    · exact gcf_refl gs
  · exact gcf_refl gs

theorem gcf_introduce_random_events (gs : GameState) (rng : PyRandom) :
    gsCompletedFixed gs (introduce_random_events gs rng).1 := by
  unfold introduce_random_events
  dsimp only
  split
  · split
    · exact gcf_of_chars_eq rfl
    · exact gcf_refl gs
  · exact gcf_refl gs

theorem gcf_summarizeStep (st : GameState × List (String × String)) (n : String) :
    gsCompletedFixed st.1 (summarizeStep st n).1 := by
  unfold summarizeStep
  split
  · exact gcf_refl st.1
  · rename_i c heq
    exact gcf_setChar_projEq heq rfl

theorem gcf_summarize_fold (names : List String) :
    ∀ st : GameState × List (String × String),
      gsCompletedFixed st.1 (names.foldl summarizeStep st).1 := by
  induction names with
  | nil => exact fun st => gcf_refl st.1
  | cons n rest ih =>
    intro st
    exact gcf_trans (gcf_summarizeStep st n) (ih _)

theorem gcf_generate_summaries (gs : GameState) (actions : List Action) :
    gsCompletedFixed gs (generate_summaries gs actions).1 := by
  unfold generate_summaries
  exact gcf_trans (gcf_summarize_fold (gs.characters.map Prod.fst) (gs, []))
    (gcf_of_chars_eq rfl)

theorem gcf_process_round (now : PyDate) (rng : PyRandom) (gs : GameState)
    (actions : List Action) :
    gsCompletedFixed gs (process_round now rng gs actions).1 := by
  unfold process_round
  dsimp only
  exact gcf_trans (gcf_of_chars_eq rfl)
    (gcf_trans (gcf_process_messages actions gs.increment_round)
      (gcf_trans (gcf_actions_fold now actions (process_messages gs.increment_round actions, rng))
        (gcf_trans (gcf_update_research_projects _)
          (gcf_trans (gcf_simulate_espionage_results _)
            (gcf_trans (gcf_simulate_information_leaks _ _)
              (gcf_trans (gcf_introduce_random_events _ _)
                (gcf_generate_summaries _ _)))))))

end GameMaster

/-! ## Substring lemmas -/

theorem containsSeq_append_self (needle post : List Char) :
    containsSeq needle (needle ++ post) = true := by
  cases needle with
  | nil => cases post <;> simp [containsSeq]
  | cons c cs =>
    simp only [List.cons_append, containsSeq, Bool.or_eq_true]
    left
    rw [ List.isPrefixOf_iff_prefix]
    exact (c :: cs).prefix_append post

theorem containsSeq_middle (pre needle post : List Char) :
    containsSeq needle (pre ++ (needle ++ post)) = true := by
  induction pre with
  | nil => exact containsSeq_append_self needle post
  | cons p ps ih =>
    cases needle with
    | nil => simp [containsSeq]
    | cons c cs =>
      simp only [List.cons_append, containsSeq, Bool.or_eq_true]
      right
      simpa using ih

theorem containsSub_of_parts (hay pre needle post : String)
    (h : hay.data = pre.data ++ needle.data ++ post.data) :
    containsSub hay needle = true := by
  unfold containsSub
  rw [h, List.append_assoc]
  exact containsSeq_middle pre.data needle.data post.data

theorem containsSub_self_append (needle post : String) :
    containsSub (needle ++ post) needle = true :=
  containsSub_of_parts (needle ++ post) "" needle post (by simp [String.data_append])

/-- The espionage disclosure string contains the target's budget figure
and all three asset figures. -/
theorem espionageUpdateStr_contains (t f : String) (b : ℚ) (ab : AssetBalance) :
    containsSub (GameMaster.espionageUpdateStr t f b ab) (fmtComma0 b) = true ∧
    containsSub (GameMaster.espionageUpdateStr t f b ab)
      ("tech=" ++ fmtPlain1 ab.technical_capability) = true ∧
    containsSub (GameMaster.espionageUpdateStr t f b ab)
      ("capital=" ++ fmtPlain1 ab.capital) = true ∧
    containsSub (GameMaster.espionageUpdateStr t f b ab)
      ("human=" ++ fmtPlain1 ab.human) = true := by
  refine ⟨?_, ?_, ?_, ?_⟩
  · exact containsSub_of_parts _
      ("Espionage on " ++ t ++ " (" ++ f ++ "): " ++ "Discovered budget ≈$")
      (fmtComma0 b)
      (", " ++ "assets: " ++ "tech=" ++ fmtPlain1 ab.technical_capability ++ ", " ++
        "capital=" ++ fmtPlain1 ab.capital ++ ", " ++ "human=" ++ fmtPlain1 ab.human)
      (by simp [GameMaster.espionageUpdateStr, String.data_append, List.append_assoc])
  · exact containsSub_of_parts _
      ("Espionage on " ++ t ++ " (" ++ f ++ "): " ++ "Discovered budget ≈$" ++
        fmtComma0 b ++ ", " ++ "assets: ")
      ("tech=" ++ fmtPlain1 ab.technical_capability)
      (", " ++ "capital=" ++ fmtPlain1 ab.capital ++ ", " ++ "human=" ++ fmtPlain1 ab.human)
      (by simp [GameMaster.espionageUpdateStr, String.data_append, List.append_assoc])
  · exact containsSub_of_parts _
      ("Espionage on " ++ t ++ " (" ++ f ++ "): " ++ "Discovered budget ≈$" ++
        fmtComma0 b ++ ", " ++ "assets: " ++ "tech=" ++
        fmtPlain1 ab.technical_capability ++ ", ")
      ("capital=" ++ fmtPlain1 ab.capital)
      (", " ++ "human=" ++ fmtPlain1 ab.human)
      (by simp [GameMaster.espionageUpdateStr, String.data_append, List.append_assoc])
  · exact containsSub_of_parts _
      ("Espionage on " ++ t ++ " (" ++ f ++ "): " ++ "Discovered budget ≈$" ++
        fmtComma0 b ++ ", " ++ "assets: " ++ "tech=" ++
        fmtPlain1 ab.technical_capability ++ ", " ++ "capital=" ++
        fmtPlain1 ab.capital ++ ", ")
      ("human=" ++ fmtPlain1 ab.human)
      ""
      (by simp [GameMaster.espionageUpdateStr, String.data_append, List.append_assoc])

/-! ## Claim theorems -/

namespace GameMaster

/-- C10: for every action whose `character_name` does not name a character
in the game state, `process_action` returns without any effect: the game
state and the random stream are returned unchanged — in particular no
character gains a `recent_actions` entry — so the action is skipped
silently rather than resolved as a no-op with a descriptive summary. -/
theorem processAction_unknown_character_skipped (now : PyDate) (gs : GameState)
    (rng : PyRandom) (a : Action)
    (h : gs.get_character a.character_name = none) :
    process_action now gs rng a = (gs, rng) := by
  unfold process_action
  rw [h]

/-- Witness for C10: an action submitted under the unknown name "Carol"
leaves the fixture world and stream untouched. -/
theorem processAction_unknown_character_skipped_witness :
    process_action nowY0 gsW (mkRandom 3)
        { character_name := "Carol", action_type := ActionType.FUNDRAISE,
          fundraising_amount := some 100 } =
      (gsW, mkRandom 3) :=
  processAction_unknown_character_skipped nowY0 gsW (mkRandom 3) _ (by decide)

/-- C9: a FUNDRAISE action with no amount specified consumes no draw from
the random stream and mutates no budget entry: the entire effect of
`process_action` is the descriptive summary appended to the acting
character's `recent_actions` log (bounded to the last five entries). -/
theorem processAction_fundraise_no_amount (now : PyDate) (gs : GameState)
    (rng : PyRandom) (a : Action) (c : CharacterState)
    (hc : gs.get_character a.character_name = some c)
    (ht : a.action_type = ActionType.FUNDRAISE)
    (ha : a.fundraising_amount = none) :
    process_action now gs rng a =
      (setChar gs a.character_name
        { c with recent_actions := lastFive (c.recent_actions ++
            ["Round " ++ toString gs.round_number ++ ": " ++
              "Fundraising action with no amount specified"]) },
       rng) := by
  unfold process_action
  rw [hc, ht]
  unfold process_fundraising
  rw [ha]
  simp [truthyQ, modifyChar, hc]

/-- Witness for C9: Alice submits a FUNDRAISE action with no amount; the
only change is her action log, and the stream is unconsumed. -/
theorem processAction_fundraise_no_amount_witness :
    process_action nowY0 gsW (mkRandom 3)
        { character_name := "Alice", action_type := ActionType.FUNDRAISE } =
      (setChar gsW "Alice"
        { aliceW with recent_actions :=
            ["Round 0: Fundraising action with no amount specified"] },
       mkRandom 3) :=
  processAction_fundraise_no_amount nowY0 gsW (mkRandom 3) _ aliceW
    (by decide) rfl rfl

/-- C8: a CREATE_RESEARCH_PROJECT action whose required assets exceed the
character's true asset balance in any of the three categories resolves
with no mutation at all — game state and random stream are returned
unchanged — and its summary contains the text "Insufficient resources";
likewise a request whose annual budget exceeds the current-year budget
resolves with no mutation. -/
theorem createResearch_insufficient_no_mutation
    (now : PyDate) (gs : GameState) (rng : PyRandom) (name : String)
    (c : CharacterState) (a : Action) (pd : ResearchProjectPayload)
    (hp : a.research_project = some pd) :
    ((c.private_info.true_asset_balance.technical_capability <
        dgetQ pd.required_assets "technical_capability" 0 ∨
      c.private_info.true_asset_balance.capital < dgetQ pd.required_assets "capital" 0 ∨
      c.private_info.true_asset_balance.human < dgetQ pd.required_assets "human" 0) →
      process_create_research now gs rng name c a =
        (gs, rng, "Insufficient resources to start research project \x27" ++ pd.name ++ "\x27") ∧
      containsSub (process_create_research now gs rng name c a).2.2
        "Insufficient resources" = true) ∧
    (¬(c.private_info.true_asset_balance.technical_capability <
        dgetQ pd.required_assets "technical_capability" 0 ∨
      c.private_info.true_asset_balance.capital < dgetQ pd.required_assets "capital" 0 ∨
      c.private_info.true_asset_balance.human < dgetQ pd.required_assets "human" 0) →
      dgetQ c.private_info.budget (yearStr gs.current_date) 0 < pd.annual_budget →
      process_create_research now gs rng name c a =
        (gs, rng, "Insufficient budget for research project \x27" ++ pd.name ++ "\x27")) := by
  unfold process_create_research
  rw [hp]
  dsimp only
  constructor
  · intro h
    rw [if_pos h]
    refine ⟨rfl, ?_⟩
    rw [show ("Insufficient resources to start research project \x27" : String) =
        "Insufficient resources" ++ " to start research project \x27" from rfl]
    exact containsSub_of_parts _ "" "Insufficient resources"
      (" to start research project \x27" ++ pd.name ++ "\x27")
      (by simp [String.data_append])
  · intro h hb
    rw [if_neg h, if_pos hb]

/-- Witness for C8: Alice requests a project needing 1000 capital while
holding 100; nothing changes and the summary flags insufficient
resources. -/
theorem createResearch_insufficient_no_mutation_witness :
    process_create_research nowY0 gsW (mkRandom 3) "Alice" aliceW
        { character_name := "Alice", action_type := ActionType.CREATE_RESEARCH_PROJECT,
          research_project := some
            { name := "Big", description := "", target_completion_date := "1970-06-01",
              annual_budget := 10, required_assets := [("capital", 1000)] } } =
      (gsW, mkRandom 3,
        "Insufficient resources to start research project \x27" ++ "Big" ++ "\x27") ∧
    containsSub "Insufficient resources to start research project \x27Big\x27"
      "Insufficient resources" = true := by
  have h := (createResearch_insufficient_no_mutation nowY0 gsW (mkRandom 3) "Alice" aliceW
    { character_name := "Alice", action_type := ActionType.CREATE_RESEARCH_PROJECT,
      research_project := some
        { name := "Big", description := "", target_completion_date := "1970-06-01",
          annual_budget := 10, required_assets := [("capital", 1000)] } }
    { name := "Big", description := "", target_completion_date := "1970-06-01",
      annual_budget := 10, required_assets := [("capital", 1000)] } rfl).1
    (by right; left; decide)
  exact ⟨h.1, by rw [h.1] at h; simpa using h.2⟩

/-- C3 (amended: the action must carry a nonzero amount, since the
handler treats the falsy amount `0.0` exactly like a missing amount and
consumes no draw): resolution of a FUNDRAISE action carrying a nonzero
amount `amt` draws exactly one value from the random stream and succeeds
iff that value is below the fixed probability 0.7; on success exactly
`0.8 * amt` is added to the character's wall-clock-current-year budget
entry and nothing else changes; on failure no state changes at all. -/
theorem fundraise_nonzero_amount_spec
    (now : PyDate) (gs : GameState) (rng : PyRandom) (name : String)
    (c : CharacterState) (a : Action) (amt : ℚ)
    (ha : a.fundraising_amount = some amt) (hnz : amt ≠ 0) :
    (process_fundraising now gs rng name c a).2.1.stream = rng.stream ∧
    (process_fundraising now gs rng name c a).2.1.idx = rng.idx + 1 ∧
    (rng.stream rng.idx < 0.7 →
      (process_fundraising now gs rng name c a).1 =
        setChar gs name { c with private_info := { c.private_info with
          budget := dsetQ c.private_info.budget (yearStr now)
            (dgetQ c.private_info.budget (yearStr now) 0 + amt * 0.8) } }) ∧
    (¬ rng.stream rng.idx < 0.7 →
      (process_fundraising now gs rng name c a).1 = gs) := by
  unfold process_fundraising
  rw [ha]
  dsimp only [randFloat]
  split
  · refine ⟨?_, ?_, ?_, ?_⟩
    · split <;> rfl
    · split <;> rfl
    · intro h; rw [if_pos h]; rfl
    · intro h; rw [if_neg h]
  · rename_i hf
    exact absurd (by simp [truthyQ, hnz]) hf

/-- Witness for C3: with the stream forced below 0.7, a 1000 fundraise by
Alice credits exactly 800 to her 1970 budget entry; forced above 0.7, the
state is unchanged. -/
theorem fundraise_nonzero_amount_spec_witness :
    ((process_fundraising nowY0 gsW (constRand (1/2)) "Alice" aliceW fundraiseW).1.get_character
        "Alice").map (fun ch => dgetQ ch.private_info.budget "1970" 0) = some 1800 ∧
    (process_fundraising nowY0 gsW (constRand 0.9) "Alice" aliceW fundraiseW).1 = gsW := by
  have hs := fundraise_nonzero_amount_spec nowY0 gsW (constRand (1/2)) "Alice" aliceW
    fundraiseW 1000 rfl (by norm_num)
  have hf := fundraise_nonzero_amount_spec nowY0 gsW (constRand 0.9) "Alice" aliceW
    fundraiseW 1000 rfl (by norm_num)
  constructor
  · rw [hs.2.2.1 (by decide)]
    decide
  · exact hf.2.2.2 (by decide)

/-- Counterexample to C3 as stated: a FUNDRAISE action carrying the
amount 0 consumes no draw from the random stream (the handler's
truthiness test treats `0.0` like a missing amount), contradicting the
claim that resolution of every amount-carrying FUNDRAISE draws one
value. -/
theorem fundraise_zero_amount_draws_nothing :
    (process_fundraising nowY0 gsW (mkRandom 3) "Alice" aliceW fundraiseZeroW).2.1.idx =
      (mkRandom 3).idx ∧
    (process_fundraising nowY0 gsW (mkRandom 3) "Alice" aliceW fundraiseZeroW).2.1.idx ≠
      (mkRandom 3).idx + 1 ∧
    (process_fundraising nowY0 gsW (mkRandom 3) "Alice" aliceW fundraiseZeroW).1 = gsW := by
  decide

/-- C5: a resolved POACH_TALENT action between two distinct known
characters conserves the total human resource across the two involved
characters: on success the transferred quantity
`min(0.1 * target human, 5.0)` is subtracted from the target and added to
the actor, and on every failure path neither figure changes. -/
theorem poaching_conserves_human_total
    (gs : GameState) (rng : PyRandom) (name tname : String)
    (c : CharacterState) (a : Action)
    (hc : gs.get_character name = some c)
    (ht : a.poaching_target = some tname)
    (hne : name ≠ tname) :
    humanOf (process_poaching gs rng name c a).1 name +
      humanOf (process_poaching gs rng name c a).1 tname =
    humanOf gs name + humanOf gs tname := by
  unfold process_poaching
  rw [ht]
  dsimp only [randFloat, Option.getD]
  split
  · split
    · rfl
    · rename_i target htarget
      split
      · rfl
      · split
        · refine (humanOf_transfer _ name tname _ target ?_ ?_ hne).trans ?_
          · rw [get_character_setChar_ne (Ne.symm hne)]
            exact htarget
          · rw [get_character_setChar_self hc _]
            rfl
          · rw [humanOf_eq_of_get (get_character_setChar_self hc _),
                humanOf_eq_of_get hc, humanOf_setChar_ne _ (Ne.symm hne)]
        · rw [humanOf_eq_of_get (get_character_setChar_self hc _),
              humanOf_eq_of_get hc, humanOf_setChar_ne _ (Ne.symm hne)]
  · rfl

/-- Witness for C5: Alice successfully poaches from Bob (stream forced to
the success branch); the sum of their human figures is unchanged. -/
theorem poaching_conserves_human_total_witness :
    humanOf (process_poaching gsW (constRand (1/10)) "Alice" aliceW
        { character_name := "Alice", action_type := ActionType.POACH_TALENT,
          poaching_target := some "Bob", poaching_budget := some 200 }).1 "Alice" +
      humanOf (process_poaching gsW (constRand (1/10)) "Alice" aliceW
        { character_name := "Alice", action_type := ActionType.POACH_TALENT,
          poaching_target := some "Bob", poaching_budget := some 200 }).1 "Bob" =
    humanOf gsW "Alice" + humanOf gsW "Bob" :=
  poaching_conserves_human_total gsW (constRand (1/10)) "Alice" "Bob" aliceW
    { character_name := "Alice", action_type := ActionType.POACH_TALENT,
      poaching_target := some "Bob", poaching_budget := some 200 }
    (by decide) rfl (by decide)

/-- C7: for an ESPIONAGE action with a known (distinct) target and
sufficient budget, the budget is deducted from the actor immediately —
regardless of the outcome — and one draw is consumed; the queued attempt
succeeds iff the draw is below `min(0.3 + budget/1,000,000, 0.8)`.  When
the acting character's pending buffer is then drained (phase 5,
`_simulate_espionage_results`, whose loop body `simulateEspChar` is
applied here to the actor): on success the actor's private-update buffer
receives a string disclosing the target's current-year budget figure and
all three true asset figures; on failure no private update is produced;
the pending espionage buffer is empty afterwards in both cases, and the
target's state is untouched throughout. -/
theorem espionage_resolution_spec
    (gs : GameState) (rng : PyRandom) (name : String) (c tgt : CharacterState)
    (a : Action) (esp : EspionagePayload)
    (he : a.espionage = some esp)
    (hc : gs.get_character name = some c)
    (htgt : gs.get_character esp.target_character = some tgt)
    (hne : name ≠ esp.target_character)
    (hbuf : c.espionage_results = [])
    (hbudget : ¬ dgetQ c.private_info.budget (yearStr gs.current_date) 0 < esp.budget) :
    (process_espionage gs rng name c a).2.1 = ⟨rng.stream, rng.idx + 1⟩ ∧
    (process_espionage gs rng name c a).1 = setChar gs name
      (espionageQueuedChar c (yearStr gs.current_date) esp
        (decide (rng.stream rng.idx < min (0.3 + esp.budget / 1000000) 0.8))
        gs.round_number) ∧
    (simulateEspChar (process_espionage gs rng name c a).1 name).get_character
      esp.target_character = some tgt ∧
    (rng.stream rng.idx < min (0.3 + esp.budget / 1000000) 0.8 →
      (simulateEspChar (process_espionage gs rng name c a).1 name).get_character name =
        some { espionageQueuedChar c (yearStr gs.current_date) esp true gs.round_number with
               espionage_results := [],
               private_updates := c.private_updates ++
                 [espionageUpdateStr esp.target_character esp.focus
                   (dgetQ tgt.private_info.budget (yearStr gs.current_date) 0)
                   tgt.private_info.true_asset_balance] } ∧
      containsSub
        (espionageUpdateStr esp.target_character esp.focus
          (dgetQ tgt.private_info.budget (yearStr gs.current_date) 0)
          tgt.private_info.true_asset_balance)
        (fmtComma0 (dgetQ tgt.private_info.budget (yearStr gs.current_date) 0)) = true ∧
      containsSub
        (espionageUpdateStr esp.target_character esp.focus
          (dgetQ tgt.private_info.budget (yearStr gs.current_date) 0)
          tgt.private_info.true_asset_balance)
        ("tech=" ++ fmtPlain1 tgt.private_info.true_asset_balance.technical_capability) = true ∧
      containsSub
        (espionageUpdateStr esp.target_character esp.focus
          (dgetQ tgt.private_info.budget (yearStr gs.current_date) 0)
          tgt.private_info.true_asset_balance)
        ("capital=" ++ fmtPlain1 tgt.private_info.true_asset_balance.capital) = true ∧
      containsSub
        (espionageUpdateStr esp.target_character esp.focus
          (dgetQ tgt.private_info.budget (yearStr gs.current_date) 0)
          tgt.private_info.true_asset_balance)
        ("human=" ++ fmtPlain1 tgt.private_info.true_asset_balance.human) = true) ∧
    (¬ rng.stream rng.idx < min (0.3 + esp.budget / 1000000) 0.8 →
      (simulateEspChar (process_espionage gs rng name c a).1 name).get_character name =
        some { espionageQueuedChar c (yearStr gs.current_date) esp false gs.round_number with
               espionage_results := [] }) := by
  have hr : process_espionage gs rng name c a = (setChar gs name
      (espionageQueuedChar c (yearStr gs.current_date) esp
        (decide (rng.stream rng.idx < min (0.3 + esp.budget / 1000000) 0.8))
        gs.round_number),
      ⟨rng.stream, rng.idx + 1⟩,
      "Conducted espionage on " ++ esp.target_character ++ " (" ++
        (if decide (rng.stream rng.idx < min (0.3 + esp.budget / 1000000) 0.8) then
          "success" else "failed") ++ ")") := by
    unfold process_espionage
    rw [he]
    dsimp only
    rw [htgt]
    dsimp only [randFloat]
    rw [if_neg hbudget]
  rw [hr]
  dsimp only
  have hlook := get_character_setChar_self hc
    (espionageQueuedChar c (yearStr gs.current_date) esp
      (decide (rng.stream rng.idx < min (0.3 + esp.budget / 1000000) 0.8))
      gs.round_number)
  have h2 : (setChar gs name
      (espionageQueuedChar c (yearStr gs.current_date) esp
        (decide (rng.stream rng.idx < min (0.3 + esp.budget / 1000000) 0.8))
        gs.round_number)).get_character esp.target_character = some tgt := by
    rw [get_character_setChar_ne (Ne.symm hne)]
    exact htgt
  refine ⟨rfl, rfl, ?_, ?_, ?_⟩
  · unfold simulateEspChar
    rw [hlook]
    dsimp only
    rw [get_character_setChar_ne (Ne.symm hne), get_character_setChar_ne (Ne.symm hne)]
    exact htgt
  · intro hu
    refine ⟨?_, (espionageUpdateStr_contains _ _ _ _).1,
      (espionageUpdateStr_contains _ _ _ _).2.1,
      (espionageUpdateStr_contains _ _ _ _).2.2.1,
      (espionageUpdateStr_contains _ _ _ _).2.2.2⟩
    unfold simulateEspChar
    rw [hlook]
    dsimp only
    rw [get_character_setChar_self hlook _, decide_eq_true hu]
    have hqe : (espionageQueuedChar c (yearStr gs.current_date) esp true
        gs.round_number).espionage_results =
        [⟨esp.target_character, esp.focus, esp.budget, true, gs.round_number⟩] := by
      simp [espionageQueuedChar, hbuf]
    have h2t : (setChar gs name (espionageQueuedChar c (yearStr gs.current_date) esp true
        gs.round_number)).get_character esp.target_character = some tgt := by
      rw [get_character_setChar_ne (Ne.symm hne)]
      exact htgt
    rw [hqe]
    dsimp only [List.foldl]
    rw [h2t]
    simp [espionageQueuedChar]
  · intro hu
    unfold simulateEspChar
    rw [hlook]
    dsimp only
    rw [get_character_setChar_self hlook _, decide_eq_false hu]
    have hqe : (espionageQueuedChar c (yearStr gs.current_date) esp false
        gs.round_number).espionage_results =
        [⟨esp.target_character, esp.focus, esp.budget, false, gs.round_number⟩] := by
      simp [espionageQueuedChar, hbuf]
    rw [hqe]
    dsimp only [List.foldl]
    simp [espionageQueuedChar]

/-- Witness for C7: Alice spies on Bob with budget 100 and the stream
forced to the success branch; one draw is consumed and after the phase-5
drain her private updates hold the disclosure of Bob's budget and
assets. -/
theorem espionage_resolution_spec_witness :
    (process_espionage gsW (constRand (1/4)) "Alice" aliceW
        { character_name := "Alice", action_type := ActionType.ESPIONAGE,
          espionage := some ⟨"Bob", 100, "assets"⟩ }).2.1 =
      ⟨(constRand (1/4)).stream, (constRand (1/4)).idx + 1⟩ ∧
    ((simulateEspChar (process_espionage gsW (constRand (1/4)) "Alice" aliceW
        { character_name := "Alice", action_type := ActionType.ESPIONAGE,
          espionage := some ⟨"Bob", 100, "assets"⟩ }).1 "Alice").get_character
        "Alice").map (fun ch => ch.private_updates) =
      some [espionageUpdateStr "Bob" "assets"
        (dgetQ bobW.private_info.budget (yearStr gsW.current_date) 0)
        bobW.private_info.true_asset_balance] := by
  have h := espionage_resolution_spec gsW (constRand (1/4)) "Alice" aliceW bobW
    { character_name := "Alice", action_type := ActionType.ESPIONAGE,
      espionage := some ⟨"Bob", 100, "assets"⟩ }
    ⟨"Bob", 100, "assets"⟩ rfl (by decide) (by decide) (by decide) rfl (by decide)
  refine ⟨h.1, ?_⟩
  rw [(h.2.2.2.1 (by decide)).1]
  rfl

/-- Lemma: `_assess_research_realism` may extend the timeline and attach a note,
but never changes the identifying or resource fields of the project. -/
theorem assess_research_realism_preserves (now : PyDate) (p : ResearchProject) :
    (assess_research_realism now p).1.name = p.name ∧
    (assess_research_realism now p).1.status = p.status ∧
    (assess_research_realism now p).1.committed_assets = p.committed_assets ∧
    (assess_research_realism now p).1.committed_budget = p.committed_budget ∧
    (assess_research_realism now p).1.progress = p.progress := by
  unfold assess_research_realism
  dsimp only
  split <;> exact ⟨rfl, rfl, rfl, rfl, rfl⟩

/-- Lemma: `finalizeProject` only touches the timeline and the advisory note. -/
theorem finalizeProject_preserves (now : PyDate) (p : ResearchProject) :
    (finalizeProject now p).name = p.name ∧
    (finalizeProject now p).status = p.status ∧
    (finalizeProject now p).committed_assets = p.committed_assets := by
  unfold finalizeProject
  exact ⟨(assess_research_realism_preserves now p).1,
    (assess_research_realism_preserves now p).2.1,
    (assess_research_realism_preserves now p).2.2.1⟩

/-- Lemma: `cancelFirst` on a list with no active match followed by a matching
active project cancels exactly that last project. -/
theorem cancelFirst_append_last (pname : String) (l : List ResearchProject)
    (p : ResearchProject)
    (hl : ∀ q ∈ l, ¬(q.name = pname ∧ q.status = "active"))
    (hcond : p.name = pname ∧ p.status = "active") :
    cancelFirst pname (l ++ [p]) =
      some (l ++ [{ p with status := "cancelled" }],
        ⟨p.committed_assets.technical_capability * 0.5,
         p.committed_assets.capital * 0.5,
         p.committed_assets.human * 0.5⟩) := by
  induction l with
  | nil => simp [cancelFirst, hcond]
  | cons q rest ih =>
    have hq := hl q (List.mem_cons_self q rest)
    simp only [List.cons_append, cancelFirst, if_neg hq, List.append_eq]
    rw [ih (fun r hr => hl r (List.mem_cons_of_mem q hr))]

/-- Lemma: `cancelFirst` finds nothing when no project matches actively. -/
theorem cancelFirst_eq_none (pname : String) (l : List ResearchProject)
    (hl : ∀ q ∈ l, ¬(q.name = pname ∧ q.status = "active")) :
    cancelFirst pname l = none := by
  induction l with
  | nil => rfl
  | cons q rest ih =>
    have hq := hl q (List.mem_cons_self q rest)
    simp only [cancelFirst, if_neg hq, List.append_eq]
    rw [ih (fun r hr => hl r (List.mem_cons_of_mem q hr))]

/-- C4 (amended: the project's name must be nonempty — a CANCEL naming
the empty string is treated by the handler's truthiness test as carrying
no name at all, so an empty-named project can never be cancelled — and,
per the data model's uniqueness invariant, no other active project of the
character may already bear the name): creating a project and then
cancelling it by name marks that project cancelled and adds back exactly
half of each committed asset category to the character's true asset
balance, and never adds anything back to any budget entry; a CANCEL
action naming no active project of the character changes no state. -/
theorem create_then_cancel_refunds_half :
    (∀ (now : PyDate) (gs : GameState) (rng rng2 : PyRandom) (name : String)
       (c c1 : CharacterState) (a a2 : Action) (pd : ResearchProjectPayload),
      gs.get_character name = some c →
      a.research_project = some pd →
      pd.name ≠ "" →
      (∀ q ∈ c.private_info.projects, ¬(q.name = pd.name ∧ q.status = "active")) →
      ¬(c.private_info.true_asset_balance.technical_capability <
          dgetQ pd.required_assets "technical_capability" 0 ∨
        c.private_info.true_asset_balance.capital < dgetQ pd.required_assets "capital" 0 ∨
        c.private_info.true_asset_balance.human < dgetQ pd.required_assets "human" 0) →
      ¬(dgetQ c.private_info.budget (yearStr gs.current_date) 0 < pd.annual_budget) →
      a2.project_name_to_cancel = some pd.name →
      (process_create_research now gs rng name c a).1.get_character name = some c1 →
      ∃ cf q,
        (process_cancel_research (process_create_research now gs rng name c a).1
            rng2 name c1 a2).1.get_character name = some cf ∧
        cf.private_info.projects = c.private_info.projects ++ [q] ∧
        q.name = pd.name ∧
        q.status = "cancelled" ∧
        q.committed_assets = requiredOf pd ∧
        cf.private_info.true_asset_balance =
          (c.private_info.true_asset_balance.subtract (requiredOf pd)).add
            ⟨(requiredOf pd).technical_capability * 0.5, (requiredOf pd).capital * 0.5,
             (requiredOf pd).human * 0.5⟩ ∧
        cf.private_info.budget = dsetQ c.private_info.budget (yearStr gs.current_date)
          (dgetQ c.private_info.budget (yearStr gs.current_date) 0 - pd.annual_budget)) ∧
    (∀ (gs : GameState) (rng : PyRandom) (name : String) (c : CharacterState) (a2 : Action),
      gs.get_character name = some c →
      (∀ pn, a2.project_name_to_cancel = some pn →
        pn = "" ∨ ∀ q ∈ c.private_info.projects, ¬(q.name = pn ∧ q.status = "active")) →
      process_cancel_research gs rng name c a2 =
        (gs, rng, (process_cancel_research gs rng name c a2).2.2)) := by
  constructor
  · intro now gs rng rng2 name c c1 a a2 pd hc hp hpname hnodup hassets hbudget ha2 hc1
    unfold process_create_research at hc1 ⊢
    rw [hp] at hc1 ⊢
    dsimp only at hc1 ⊢
    rw [if_neg hassets, if_neg hbudget] at hc1 ⊢
    rw [get_character_setChar_self hc _] at hc1
    injection hc1 with hc1
    subst hc1
    unfold process_cancel_research
    rw [ha2]
    have htr : truthyS (some pd.name) = true := by simp [truthyS, hpname]
    rw [htr]
    dsimp only [Option.getD, if_true]
    rw [cancelFirst_append_last pd.name c.private_info.projects _ hnodup
      ⟨(finalizeProject_preserves now _).1, (finalizeProject_preserves now _).2.1⟩]
    dsimp only
    refine ⟨_, _, get_character_setChar_self (get_character_setChar_self hc _) _,
      rfl, (finalizeProject_preserves now _).1, rfl, ?_, ?_, rfl⟩
    · exact (finalizeProject_preserves now _).2.2
    · rw [(finalizeProject_preserves now _).2.2]
      rfl
  · intro gs rng name c a2 hc hno
    unfold process_cancel_research
    cases ha2 : a2.project_name_to_cancel with
    | none => rfl
    | some pn =>
      rcases hno pn ha2 with hemp | hnomatch
      · subst hemp
        rfl
      · by_cases hpn : pn = ""
        · subst hpn
          rfl
        · have htr : truthyS (some pn) = true := by simp [truthyS, hpn]
          rw [htr]
          dsimp only [Option.getD, if_true]
          rw [cancelFirst_eq_none pn c.private_info.projects hnomatch]
          rfl

/-- Witness for C4: Alice creates "X" (deducting 10/20/4 assets and 100
budget) and cancels it; the project is marked cancelled, half of each
committed asset category returns, and the budget stays at its
post-creation value. -/
theorem create_then_cancel_refunds_half_witness :
    ∃ cf q,
      (process_cancel_research
          (process_create_research nowY0 gsW (mkRandom 3) "Alice" aliceW createW).1
          (mkRandom 3) "Alice"
          (mkCharW "Alice" 40 80 26 [("1970", 900)] [projXW]) cancelW).1.get_character
        "Alice" = some cf ∧
      cf.private_info.projects = aliceW.private_info.projects ++ [q] ∧
      q.name = pdW.name ∧
      q.status = "cancelled" ∧
      q.committed_assets = requiredOf pdW ∧
      cf.private_info.true_asset_balance =
        (aliceW.private_info.true_asset_balance.subtract (requiredOf pdW)).add
          ⟨(requiredOf pdW).technical_capability * 0.5, (requiredOf pdW).capital * 0.5,
           (requiredOf pdW).human * 0.5⟩ ∧
      cf.private_info.budget = dsetQ aliceW.private_info.budget (yearStr gsW.current_date)
        (dgetQ aliceW.private_info.budget (yearStr gsW.current_date) 0 - pdW.annual_budget) :=
  create_then_cancel_refunds_half.1 nowY0 gsW (mkRandom 3) (mkRandom 3) "Alice" aliceW
    (mkCharW "Alice" 40 80 26 [("1970", 900)] [projXW]) createW cancelW pdW
    (by decide) rfl (by decide) (by simp [aliceW, mkCharW]) (by decide) (by decide) rfl
    (by decide)

/-- Counterexample to C4 as stated: Alice creates a project whose name is
the empty string and then cancels it by name; the handler's truthiness
test treats the empty name as missing, so the project is still active
afterwards — it was not marked cancelled as the claim requires. -/
theorem create_cancel_empty_name_not_cancelled :
    ((process_action nowY0
          (process_action nowY0 gsW (mkRandom 3) createEmptyW).1
          (process_action nowY0 gsW (mkRandom 3) createEmptyW).2 cancelEmptyW).1.get_character
        "Alice").map (fun ch => ch.private_info.projects.map (fun p => p.status)) =
      some ["active"] ∧ ("active" : String) ≠ "cancelled" := by
  decide

/-- C6: while a project is active each per-round update increases its
progress by exactly `min(0.1 + committed human/100, 0.3)`, capped so that
progress never exceeds 1.0 and never decreases, and the status flips to
"completed" exactly when the capped progress first reaches 1.0; projects
that are not active are not touched by the update, and a completed
project of any character survives an entire `process_round` untouched and
in place. -/
theorem research_progress_spec :
    (∀ p : ResearchProject, p.status = "active" → 0 ≤ p.committed_assets.human →
      p.progress ≤ 1 →
      (tickProject p).progress =
        min (p.progress + min (0.1 + p.committed_assets.human / 100) 0.3) 1 ∧
      p.progress ≤ (tickProject p).progress ∧
      (tickProject p).progress ≤ 1 ∧
      ((tickProject p).status = "completed" ↔ 1 ≤ (tickProject p).progress)) ∧
    (∀ p : ResearchProject, p.status ≠ "active" → tickProject p = p) ∧
    (∀ (now : PyDate) (rng : PyRandom) (gs : GameState) (actions : List Action)
       (name : String) (c : CharacterState) (i : Nat) (p : ResearchProject),
      gs.get_character name = some c →
      c.private_info.projects.get? i = some p →
      p.status = "completed" →
      ∃ c', (process_round now rng gs actions).1.get_character name = some c' ∧
        c'.private_info.projects.get? i = some p) := by
  refine ⟨?_, ?_, ?_⟩
  · intro p ha hh hp1
    unfold tickProject
    rw [if_pos ha]
    dsimp only
    have hrate : (0 : ℚ) ≤ min (0.1 + p.committed_assets.human / 100) 0.3 := by
      refine le_min ?_ (by norm_num)
      have : (0 : ℚ) ≤ p.committed_assets.human / 100 := by positivity
      linarith
    refine ⟨rfl, le_min (by linarith) hp1, min_le_right _ _, ?_⟩
    by_cases h1 : (1 : ℚ) ≤ min (p.progress + min (0.1 + p.committed_assets.human / 100) 0.3) 1
    · rw [if_pos h1]
      exact ⟨fun _ => h1, fun _ => rfl⟩
    · rw [if_neg h1, ha]
      constructor
      · intro habs
        exact absurd habs (by decide)
      · intro habs
        exact absurd habs h1
  · intro p hp
    unfold tickProject
    rw [if_neg hp]
  · intro now rng gs actions name c i p hc hproj hstat
    obtain ⟨c', hc', hcf⟩ := gcf_process_round now rng gs actions name c hc
    exact ⟨c', hc', hcf i p hproj hstat⟩

/-- Witness for C6: the 95%-complete fixture project ticks to exactly
100% and flips to completed, and Bob's already-completed project survives
a whole round untouched at its position. -/
theorem research_progress_spec_witness :
    (tickProject projActiveW).progress = 1 ∧
    (tickProject projActiveW).status = "completed" ∧
    ∃ c', (process_round nowY0 (mkRandom 3) gsW []).1.get_character "Bob" = some c' ∧
      c'.private_info.projects.get? 0 = some projDoneW := by
  have h1 := research_progress_spec.1 projActiveW rfl (by decide) (by decide)
  have hprog : (tickProject projActiveW).progress = 1 := h1.1.trans (by decide)
  refine ⟨hprog, h1.2.2.2.mpr (le_of_eq hprog.symm), ?_⟩
  exact research_progress_spec.2.2 nowY0 (mkRandom 3) gsW [] "Bob" bobW 0 projDoneW
    (by decide) (by decide) rfl

/-- C1 (code bug evidence): two `process_round` calls with the same seed,
the same initial state and the same single INVEST_CAPITAL action diverge
when the two calls observe wall-clock dates lying in different years —
several handlers key the budget on `datetime.now().year` instead of the
simulated date, so the run whose wall clock has moved to 1971 no longer
sees the 1970 budget and rejects the investment, while the other run
performs it.  This refutes the claimed seed-determinism of the code as
written; the spec itself flags the wall-clock budget keys as a bug. -/
theorem processRound_wall_clock_divergence :
    (process_round nowY0 (mkRandom 0) gsW [investW]).1.characters ≠
      (process_round nowY1 (mkRandom 0) gsW [investW]).1.characters := by
  decide

end GameMaster

end AI4Peace
